import Mathlib

/-!
# Swap-chain construction of `HelloTriangleApplication`

A shallow embedding of the device-selection, swap-chain and teardown parts of
`vulkan_tutorial/11_render_passes/11_render_passes.cpp` (with the data
declarations of `18_shader_input.h` / `17_swap_chain_recreation.h`), and
theorems about queue families, device extensions and suitability, format /
present-mode / extent selection, the requested image count, the image sharing
mode, view creation, the failure paths and the order of teardown. The frame
loop and the recreation of the chain, which the sources only declare, are
modelled from the specification.

Conventions of the embedding

* Vulkan handles (`VkImage`, `VkImageView`, `VkSwapchainKHR`) are natural
  numbers, `VK_NULL_HANDLE` is `0`.
* Vulkan enumerations are natural numbers carrying the values of
  `vulkan_core.h`; `VkResult` is an integer.
* `unsigned int` / `uint32_t` values are natural numbers; every place where the
  C++ arithmetic can wrap is written with an explicit `% 2 ^ 32`.
* The logical device and the window are external: the device is a record of
  deterministic functions that may depend on the whole history of calls made so
  far, and every call the application makes is appended to the ghost field
  `calls` of the application state.
* A member function that mutates the application returns the state it leaves
  behind together with an `Outcome` (normal return, C++ exception, or undefined
  behaviour).
-/

set_option autoImplicit false

/-! ## Vulkan constants (values of `vulkan_core.h`) -/

abbrev VkFormat := Nat
abbrev VkColorSpaceKHR := Nat
abbrev VkPresentModeKHR := Nat
abbrev VkSharingMode := Nat
abbrev VkResult := Int
abbrev VkImage := Nat
abbrev VkImageView := Nat
abbrev VkSwapchainKHR := Nat

def VK_NULL_HANDLE : Nat := 0
def VK_SUCCESS : VkResult := 0
def VK_SUBOPTIMAL_KHR : VkResult := 1000001003
def VK_ERROR_OUT_OF_DATE_KHR : VkResult := -1000001004
def VK_TRUE : Nat := 1

def VK_FORMAT_R8G8B8A8_UNORM : VkFormat := 37
def VK_FORMAT_R8G8B8A8_SRGB : VkFormat := 43
def VK_FORMAT_B8G8R8A8_UNORM : VkFormat := 44
def VK_COLOR_SPACE_SRGB_NONLINEAR_KHR : VkColorSpaceKHR := 0

def VK_PRESENT_MODE_IMMEDIATE_KHR : VkPresentModeKHR := 0
def VK_PRESENT_MODE_MAILBOX_KHR : VkPresentModeKHR := 1
def VK_PRESENT_MODE_FIFO_KHR : VkPresentModeKHR := 2
def VK_PRESENT_MODE_FIFO_RELAXED_KHR : VkPresentModeKHR := 3

def VK_SHARING_MODE_EXCLUSIVE : VkSharingMode := 0
def VK_SHARING_MODE_CONCURRENT : VkSharingMode := 1

def VK_IMAGE_VIEW_TYPE_2D : Nat := 1
def VK_COMPONENT_SWIZZLE_IDENTITY : Nat := 0
def VK_IMAGE_ASPECT_COLOR_BIT : Nat := 1
def VK_IMAGE_USAGE_COLOR_ATTACHMENT_BIT : Nat := 16
def VK_COMPOSITE_ALPHA_OPAQUE_BIT_KHR : Nat := 1
def VK_QUEUE_GRAPHICS_BIT : Nat := 1
def VK_KHR_SWAPCHAIN_EXTENSION_NAME : String := "VK_KHR_swapchain"

/-- The global `deviceExtensions` of the source (lines 19-22). -/
def deviceExtensions : List String := [VK_KHR_SWAPCHAIN_EXTENSION_NAME]

/-- The value of `std::numeric_limits<unsigned int>::max()`. -/
def UINT_MAX : Nat := 2 ^ 32 - 1

/-! ## Data declarations -/

structure VkSurfaceFormatKHR where
  format : VkFormat
  colorSpace : VkColorSpaceKHR
deriving DecidableEq, Repr

structure VkExtent2D where
  width : Nat
  height : Nat
deriving DecidableEq, Repr

structure VkSurfaceCapabilitiesKHR where
  minImageCount : Nat
  maxImageCount : Nat
  currentExtent : VkExtent2D
  minImageExtent : VkExtent2D
  maxImageExtent : VkExtent2D
  currentTransform : Nat
deriving DecidableEq, Repr

/-- The struct `QueueFamilyIndices` of the headers: two `std::optional<unsigned int>`. -/
structure QueueFamilyIndices where
  graphicsFamily : Option Nat
  presentFamily : Option Nat
deriving DecidableEq, Repr

/-- The member `QueueFamilyIndices::isComplete`. -/
def QueueFamilyIndices.isComplete (indices : QueueFamilyIndices) : Bool :=
  indices.graphicsFamily.isSome && indices.presentFamily.isSome

structure SwapChainSupportDetails where
  capabilities : VkSurfaceCapabilitiesKHR
  formats : List VkSurfaceFormatKHR
  presentModes : List VkPresentModeKHR
deriving DecidableEq, Repr

/-- One queue family as the application sees it: the `queueFlags` of its
`VkQueueFamilyProperties` and the answer of
`vkGetPhysicalDeviceSurfaceSupportKHR` for the application's surface. -/
structure VkQueueFamilyProperties where
  queueFlags : Nat
  presentSupport : Bool
deriving DecidableEq, Repr

/-- One entry of `vkEnumerateDeviceExtensionProperties`; `extensionName` is the
character array read as a string. -/
structure VkExtensionProperties where
  extensionName : String
  specVersion : Nat
deriving DecidableEq, Repr

/-- What the physical-device queries used by the swap-chain code answer for one
physical device and the application's surface. -/
structure VkPhysicalDevice where
  queueFamilies : List VkQueueFamilyProperties
  surfaceCapabilities : VkSurfaceCapabilitiesKHR
  surfaceFormats : List VkSurfaceFormatKHR
  surfacePresentModes : List VkPresentModeKHR
  availableExtensions : List VkExtensionProperties := []
deriving DecidableEq, Repr

/-- The instance: the physical devices that `vkEnumeratePhysicalDevices`
reports, in enumeration order. -/
structure VkInstance where
  physicalDevices : List VkPhysicalDevice
  /-- Whether `vkGetInstanceProcAddr` finds `vkDestroyDebugUtilsMessengerEXT`. -/
  hasDestroyDebugUtilsMessengerEXT : Bool := true
deriving DecidableEq, Repr

structure VkSwapchainCreateInfoKHR where
  imageFormat : VkFormat
  imageColorSpace : VkColorSpaceKHR
  presentMode : VkPresentModeKHR
  imageExtent : VkExtent2D
  minImageCount : Nat
  imageArrayLayers : Nat
  imageUsage : Nat
  imageSharingMode : VkSharingMode
  queueFamilyIndexCount : Nat
  pQueueFamilyIndices : List Nat
  preTransform : Nat
  compositeAlpha : Nat
  clipped : Nat
  oldSwapchain : VkSwapchainKHR
deriving DecidableEq, Repr

structure VkComponentMapping where
  r : Nat
  g : Nat
  b : Nat
  a : Nat
deriving DecidableEq, Repr

structure VkImageSubresourceRange where
  aspectMask : Nat
  baseMipLevel : Nat
  levelCount : Nat
  baseArrayLayer : Nat
  layerCount : Nat
deriving DecidableEq, Repr

structure VkImageViewCreateInfo where
  image : VkImage
  viewType : Nat
  format : VkFormat
  components : VkComponentMapping
  subresourceRange : VkImageSubresourceRange
deriving DecidableEq, Repr

/-- A call made on the logical device (or, for the last entries of `cleanup`,
on the instance or GLFW), with what was answered. The calls of the frame loop
name the frame slot whose fence, semaphores and command buffer they use. -/
inductive DeviceCall where
  | createSwapchain (createInfo : VkSwapchainCreateInfoKHR) (result : VkResult)
      (swapChain : VkSwapchainKHR)
  | getSwapchainImages (swapChain : VkSwapchainKHR) (images : List VkImage)
  | createImageView (createInfo : VkImageViewCreateInfo) (result : VkResult)
      (view : VkImageView)
  | destroyImageView (view : VkImageView)
  | destroySwapchain (swapChain : VkSwapchainKHR)
  | destroyPipelineLayout (pipelineLayout : Nat)
  | destroyRenderPass (renderPass : Nat)
  | destroyDevice
  | destroyDebugUtilsMessenger (debugMessenger : Nat)
  | destroySurface (surface : Nat)
  | destroyInstance
  | glfwDestroyWindow
  | glfwTerminate
  | deviceWaitIdle
  | createFramebuffer (view : VkImageView) (result : VkResult) (framebuffer : Nat)
  | destroyFramebuffer (framebuffer : Nat)
  | waitForFences (slot : Nat)
  | acquireNextImage (slot : Nat) (result : VkResult) (imageIndex : Nat)
  | resetFences (slot : Nat)
  | recordCommandBuffer (slot : Nat) (imageIndex : Nat) (extent : VkExtent2D)
  | queueSubmit (slot : Nat) (result : VkResult)
  | queuePresent (slot : Nat) (imageIndex : Nat) (result : VkResult)
deriving DecidableEq, Repr

/-- The logical device: each entry point answers from the request and the
history of calls made before it. -/
structure VkDevice where
  vkCreateSwapchainKHR : List DeviceCall → VkSwapchainCreateInfoKHR → VkResult × VkSwapchainKHR
  vkGetSwapchainImagesKHR : List DeviceCall → VkSwapchainKHR → List VkImage
  vkCreateImageView : List DeviceCall → VkImageViewCreateInfo → VkResult × VkImageView
  vkCreateFramebuffer : List DeviceCall → VkImageView → VkResult × Nat :=
    fun calls _ => (VK_SUCCESS, calls.length + 1)
  vkAcquireNextImageKHR : List DeviceCall → VkResult × Nat := fun _ => (VK_SUCCESS, 0)
  vkQueueSubmit : List DeviceCall → VkResult := fun _ => VK_SUCCESS
  vkQueuePresentKHR : List DeviceCall → VkResult := fun _ => VK_SUCCESS

/-- The window: what `glfwGetFramebufferSize` writes into its two `int`s. -/
structure GLFWwindow where
  framebufferWidth : Int
  framebufferHeight : Int
deriving DecidableEq, Repr

/-- A C++ exception thrown by the application code. -/
inductive Exception where
  | runtime_error (what : String)
  | bad_optional_access
deriving DecidableEq, Repr

/-- How a member function ends; `blocked` is a call that never returns. -/
inductive Outcome where
  | ok
  | threw (e : Exception)
  | undefined
  | blocked
deriving DecidableEq, Repr

/-- The members of `HelloTriangleApplication` the swap-chain code reads or
writes, and the ghost history `calls` of device calls. -/
structure HelloTriangleApplication where
  m_window : GLFWwindow
  m_instance : VkInstance := { physicalDevices := [] }
  m_debugMessenger : Nat := 0
  m_surface : Nat := 0
  m_physicalDevice : Option VkPhysicalDevice
  m_device : VkDevice
  m_swapChain : VkSwapchainKHR
  m_swapChainImages : List VkImage
  m_swapChainImageFormat : VkFormat
  m_swapChainExtent : VkExtent2D
  m_swapChainImageViews : List VkImageView
  m_renderPass : Nat := 0
  m_pipelineLayout : Nat := 0
  m_swapChainFramebuffers : List Nat := []
  m_commandBuffers : List Nat := []
  m_imageAvailableSemaphores : List Nat := []
  m_renderFinishedSemaphores : List Nat := []
  m_inFlightFences : List Nat := []
  m_currentFrame : Nat := 0
  m_framebufferResized : Bool := false
  /-- The framebuffer sizes that later polls of the window will observe. -/
  windowEvents : List (Int × Int) := []
  calls : List DeviceCall

/-! ## Library functions of C++ used by the code -/

/-- The function `std::clamp(v, lo, hi)`: `(v < lo) ? lo : (hi < v) ? hi : v`. -/
def std_clamp (v lo hi : Nat) : Nat :=
  if v < lo then lo else if hi < v then hi else v

/-- The conversion `static_cast<unsigned int>(x)` of an `int`. -/
def static_cast_unsigned (x : Int) : Nat :=
  (x % (2 ^ 32 : Int)).toNat

/-- The constructor `std::set<std::string>(first, last)`: the distinct strings
of the range (the order a set keeps them in plays no part here). -/
def std_set_of (l : List String) : List String :=
  l.dedup

/-- The call `s.erase(key)` on a `std::set<std::string>`: the set without
`key`. -/
def std_set_erase (s : List String) (key : String) : List String :=
  s.filter fun x => x ≠ key

/-- The call `v.resize(n)` on a `std::vector` of handles: keeps the first `n`
elements and pads with value-initialised (null) handles. -/
def vector_resize (v : List Nat) (n : Nat) : List Nat :=
  v.take n ++ List.replicate (n - v.length) VK_NULL_HANDLE

namespace HelloTriangleApplication

/-! ## Selection functions -/

/-- The range-for loop of `chooseSwapSurfaceFormat`: `some f` when the loop
returns `f`, `none` when the loop runs to its end. -/
def chooseSwapSurfaceFormat.loop : List VkSurfaceFormatKHR → Option VkSurfaceFormatKHR
  | [] => none
  | availableFormat :: rest =>
    if availableFormat.format = VK_FORMAT_B8G8R8A8_UNORM ∧
        availableFormat.colorSpace = VK_COLOR_SPACE_SRGB_NONLINEAR_KHR then
      some availableFormat
    else
      chooseSwapSurfaceFormat.loop rest

/-- The function `chooseSwapSurfaceFormat`; `none` stands for the undefined
`availableFormats[0]` on an empty vector. -/
def chooseSwapSurfaceFormat (availableFormats : List VkSurfaceFormatKHR) :
    Option VkSurfaceFormatKHR :=
  match chooseSwapSurfaceFormat.loop availableFormats with
  | some availableFormat => some availableFormat
  | none => availableFormats[0]?

/-- The function `chooseSwapPresentMode`. -/
def chooseSwapPresentMode : List VkPresentModeKHR → VkPresentModeKHR
  | [] => VK_PRESENT_MODE_FIFO_KHR
  | availablePresentMode :: rest =>
    if availablePresentMode = VK_PRESENT_MODE_MAILBOX_KHR then
      availablePresentMode
    else
      chooseSwapPresentMode rest

/-- The function `chooseSwapExtent`, reading the framebuffer size of `m_window`
only in the branch that calls `glfwGetFramebufferSize`. -/
def chooseSwapExtent (m_window : GLFWwindow) (capabilities : VkSurfaceCapabilitiesKHR) :
    VkExtent2D :=
  if capabilities.currentExtent.width ≠ UINT_MAX then
    capabilities.currentExtent
  else
    let width := m_window.framebufferWidth
    let height := m_window.framebufferHeight
    let actualExtent : VkExtent2D :=
      ⟨static_cast_unsigned width, static_cast_unsigned height⟩
    let actualExtent : VkExtent2D :=
      ⟨std_clamp actualExtent.width capabilities.minImageExtent.width
          capabilities.maxImageExtent.width, actualExtent.height⟩
    let actualExtent : VkExtent2D :=
      ⟨actualExtent.width, std_clamp actualExtent.height capabilities.minImageExtent.height
          capabilities.maxImageExtent.height⟩
    actualExtent

/-! ## Queue families and swap-chain support -/

/-- The range-for loop of `findQueueFamilies`, with the counter `i` and the
indices found so far; the recursion stops at the `break`. -/
def findQueueFamilies.loop :
    List VkQueueFamilyProperties → Nat → QueueFamilyIndices → QueueFamilyIndices
  | [], _, indices => indices
  | queueFamily :: rest, i, indices =>
    let indices : QueueFamilyIndices :=
      if queueFamily.queueFlags &&& VK_QUEUE_GRAPHICS_BIT ≠ 0 then
        { indices with graphicsFamily := some i }
      else indices
    let indices : QueueFamilyIndices :=
      if queueFamily.presentSupport then
        { indices with presentFamily := some i }
      else indices
    if indices.isComplete then indices
    else findQueueFamilies.loop rest (i + 1) indices

/-- The function `findQueueFamilies`. -/
def findQueueFamilies (device : VkPhysicalDevice) : QueueFamilyIndices :=
  findQueueFamilies.loop device.queueFamilies 0 ⟨none, none⟩

/-- The function `querySwapChainSupport`: each vector stays empty when the
reported count is zero and is otherwise resized and filled. -/
def querySwapChainSupport (device : VkPhysicalDevice) : SwapChainSupportDetails :=
  { capabilities := device.surfaceCapabilities
    formats := if device.surfaceFormats.length ≠ 0 then device.surfaceFormats else []
    presentModes :=
      if device.surfacePresentModes.length ≠ 0 then device.surfacePresentModes else [] }

/-! ## Swap-chain creation -/

/-- The local `imageCount` of `createSwapChain` (lines 456-460): an
`unsigned int` addition followed by the cap. -/
def createSwapChain.imageCount (capabilities : VkSurfaceCapabilitiesKHR) : Nat :=
  let imageCount := (capabilities.minImageCount + 1) % 2 ^ 32
  if capabilities.maxImageCount > 0 ∧ imageCount > capabilities.maxImageCount then
    capabilities.maxImageCount
  else
    imageCount

/-- The sharing-mode branch of `createSwapChain` (lines 479-489), given the
array `queueFamilyIndices` built on line 478. -/
def createSwapChain.sharing (createInfo : VkSwapchainCreateInfoKHR)
    (indices : QueueFamilyIndices) (queueFamilyIndices : List Nat) :
    VkSwapchainCreateInfoKHR :=
  if indices.graphicsFamily ≠ indices.presentFamily then
    { createInfo with
      imageSharingMode := VK_SHARING_MODE_CONCURRENT
      queueFamilyIndexCount := 2
      pQueueFamilyIndices := queueFamilyIndices }
  else
    { createInfo with imageSharingMode := VK_SHARING_MODE_EXCLUSIVE }

/-- The function `createSwapChain`. The outcome is `undefined` for a null
`m_physicalDevice` and for `availableFormats[0]` on an empty vector, and
`bad_optional_access` when `value()` is called on an empty optional. The
return values of the two `vkGetSwapchainImagesKHR` calls are ignored, as in the
source. -/
def createSwapChain (self : HelloTriangleApplication) : HelloTriangleApplication × Outcome :=
  match self.m_physicalDevice with
  | none => (self, Outcome.undefined)
  | some m_physicalDevice =>
    let swapChainSupport := querySwapChainSupport m_physicalDevice
    match chooseSwapSurfaceFormat swapChainSupport.formats with
    | none => (self, Outcome.undefined)
    | some surfaceFormat =>
      let presentMode := chooseSwapPresentMode swapChainSupport.presentModes
      let extent := chooseSwapExtent self.m_window swapChainSupport.capabilities
      let imageCount := createSwapChain.imageCount swapChainSupport.capabilities
      let createInfo : VkSwapchainCreateInfoKHR :=
        { imageFormat := surfaceFormat.format
          imageColorSpace := surfaceFormat.colorSpace
          presentMode := presentMode
          imageExtent := extent
          minImageCount := imageCount
          imageArrayLayers := 1
          imageUsage := VK_IMAGE_USAGE_COLOR_ATTACHMENT_BIT
          imageSharingMode := 0
          queueFamilyIndexCount := 0
          pQueueFamilyIndices := []
          preTransform := 0
          compositeAlpha := 0
          clipped := 0
          oldSwapchain := 0 }
      let indices := findQueueFamilies m_physicalDevice
      match indices.graphicsFamily, indices.presentFamily with
      | some graphicsFamily, some presentFamily =>
        let queueFamilyIndices := [graphicsFamily, presentFamily]
        let createInfo := createSwapChain.sharing createInfo indices queueFamilyIndices
        let createInfo : VkSwapchainCreateInfoKHR :=
          { createInfo with
            preTransform := swapChainSupport.capabilities.currentTransform
            compositeAlpha := VK_COMPOSITE_ALPHA_OPAQUE_BIT_KHR
            clipped := VK_TRUE
            oldSwapchain := VK_NULL_HANDLE }
        let created := self.m_device.vkCreateSwapchainKHR self.calls createInfo
        let self : HelloTriangleApplication :=
          { self with
            m_swapChain := created.2
            calls := self.calls ++ [DeviceCall.createSwapchain createInfo created.1 created.2] }
        if created.1 ≠ VK_SUCCESS then
          (self, Outcome.threw (Exception.runtime_error "failed to create swap chain!"))
        else
          -- first query (null array): only the count is written to `imageCount`
          let reported := self.m_device.vkGetSwapchainImagesKHR self.calls self.m_swapChain
          let imageCount := reported.length
          let self : HelloTriangleApplication :=
            { self with
              m_swapChainImages := vector_resize self.m_swapChainImages imageCount
              calls := self.calls ++ [DeviceCall.getSwapchainImages self.m_swapChain reported] }
          -- second query: at most `imageCount` handles are written into the array
          let reported := self.m_device.vkGetSwapchainImagesKHR self.calls self.m_swapChain
          let written := reported.take imageCount
          ({ self with
             m_swapChainImages := written ++ self.m_swapChainImages.drop written.length
             m_swapChainImageFormat := surfaceFormat.format
             m_swapChainExtent := extent
             calls := self.calls ++ [DeviceCall.getSwapchainImages self.m_swapChain reported] },
           Outcome.ok)
      | _, _ => (self, Outcome.threw Exception.bad_optional_access)

/-! ## Image views -/

/-- The `VkImageViewCreateInfo` filled in by one iteration of the loop of
`createImageViews` (lines 614-634). -/
def createImageViews.createInfo (image : VkImage) (m_swapChainImageFormat : VkFormat) :
    VkImageViewCreateInfo :=
  { image := image
    viewType := VK_IMAGE_VIEW_TYPE_2D
    format := m_swapChainImageFormat
    components :=
      { r := VK_COMPONENT_SWIZZLE_IDENTITY
        g := VK_COMPONENT_SWIZZLE_IDENTITY
        b := VK_COMPONENT_SWIZZLE_IDENTITY
        a := VK_COMPONENT_SWIZZLE_IDENTITY }
    subresourceRange :=
      { aspectMask := VK_IMAGE_ASPECT_COLOR_BIT
        baseMipLevel := 0
        levelCount := 1
        baseArrayLayer := 0
        layerCount := 1 } }

/-- The `for` loop of `createImageViews` from index `i` on; the first argument
is the part of `m_swapChainImages` from index `i`, whose head is
`m_swapChainImages[i]`. The handle the device writes goes to
`m_swapChainImageViews[i]`. -/
def createImageViews.loop :
    List VkImage → Nat → HelloTriangleApplication → HelloTriangleApplication × Outcome
  | [], _, self => (self, Outcome.ok)
  | image :: rest, i, self =>
    let createInfo := createImageViews.createInfo image self.m_swapChainImageFormat
    let created := self.m_device.vkCreateImageView self.calls createInfo
    let self : HelloTriangleApplication :=
      { self with
        m_swapChainImageViews := self.m_swapChainImageViews.set i created.2
        calls := self.calls ++ [DeviceCall.createImageView createInfo created.1 created.2] }
    if created.1 ≠ VK_SUCCESS then
      (self, Outcome.threw (Exception.runtime_error "failed to create image views!"))
    else
      createImageViews.loop rest (i + 1) self

/-- The function `createImageViews`. -/
def createImageViews (self : HelloTriangleApplication) : HelloTriangleApplication × Outcome :=
  let self : HelloTriangleApplication :=
    { self with
      m_swapChainImageViews :=
        vector_resize self.m_swapChainImageViews self.m_swapChainImages.length }
  createImageViews.loop self.m_swapChainImages 0 self

/-! ## Choice of the physical device -/

/-- The range-for loop of `checkDeviceExtensionSupport` (lines 376-379) on the
set of extensions still required. -/
def checkDeviceExtensionSupport.loop : List VkExtensionProperties → List String → List String
  | [], requiredExtensions => requiredExtensions
  | extension :: rest, requiredExtensions =>
    checkDeviceExtensionSupport.loop rest
      (std_set_erase requiredExtensions extension.extensionName)

/-- The function `checkDeviceExtensionSupport`. -/
def checkDeviceExtensionSupport (device : VkPhysicalDevice) : Bool :=
  let availableExtensions := device.availableExtensions
  let requiredExtensions := std_set_of deviceExtensions
  let requiredExtensions :=
    checkDeviceExtensionSupport.loop availableExtensions requiredExtensions
  requiredExtensions.isEmpty

/-- The function `isDeviceSuitable`; `querySwapChainSupport` is consulted only
when the extensions are supported. -/
def isDeviceSuitable (device : VkPhysicalDevice) : Bool :=
  let indices := findQueueFamilies device
  let extensionsSupported := checkDeviceExtensionSupport device
  let swapChainAdequate :=
    if extensionsSupported then
      let swapChainSupport := querySwapChainSupport device
      !swapChainSupport.formats.isEmpty && !swapChainSupport.presentModes.isEmpty
    else
      false
  indices.isComplete && extensionsSupported && swapChainAdequate

/-- The range-for loop of `pickPhysicalDevice` (lines 292-299): the first
suitable device is stored and the loop is left. -/
def pickPhysicalDevice.loop :
    List VkPhysicalDevice → HelloTriangleApplication → HelloTriangleApplication
  | [], self => self
  | device :: rest, self =>
    if isDeviceSuitable device then
      { self with m_physicalDevice := some device }
    else
      pickPhysicalDevice.loop rest self

/-- The function `pickPhysicalDevice`; a null `m_physicalDevice` is `none`. -/
def pickPhysicalDevice (self : HelloTriangleApplication) :
    HelloTriangleApplication × Outcome :=
  let devices := self.m_instance.physicalDevices
  let deviceCount := devices.length
  if deviceCount = 0 then
    (self, Outcome.threw (Exception.runtime_error "failed to find GPUs with Vulkan support!"))
  else
    let self := pickPhysicalDevice.loop devices self
    if self.m_physicalDevice = none then
      (self, Outcome.threw (Exception.runtime_error "failed to find a suitable GPU!"))
    else
      (self, Outcome.ok)

/-! ## Teardown -/

/-- The free function `DestroyDebugUtilsMessengerEXT` (lines 46-56): the calls
it makes, one when the entry point is found and none otherwise. -/
def DestroyDebugUtilsMessengerEXT (m_instance : VkInstance) (debugMessenger : Nat) :
    List DeviceCall :=
  if m_instance.hasDestroyDebugUtilsMessengerEXT then
    [DeviceCall.destroyDebugUtilsMessenger debugMessenger]
  else
    []

/-- The range-for loop of `cleanup` over `m_swapChainImageViews` (lines
118-121): the calls it makes. -/
def cleanup.destroyImageViews : List VkImageView → List DeviceCall
  | [] => []
  | imageView :: rest =>
    DeviceCall.destroyImageView imageView :: cleanup.destroyImageViews rest

/-- The function `cleanup` (lines 109-146). It writes no member; the build
constant `enableValidationLayers` is a parameter. -/
def cleanup (enableValidationLayers : Bool) (self : HelloTriangleApplication) :
    HelloTriangleApplication :=
  let self := { self with
    calls := self.calls ++ [DeviceCall.destroyPipelineLayout self.m_pipelineLayout] }
  let self := { self with
    calls := self.calls ++ [DeviceCall.destroyRenderPass self.m_renderPass] }
  let self := { self with
    calls := self.calls ++ cleanup.destroyImageViews self.m_swapChainImageViews }
  let self := { self with
    calls := self.calls ++ [DeviceCall.destroySwapchain self.m_swapChain] }
  let self := { self with calls := self.calls ++ [DeviceCall.destroyDevice] }
  let self :=
    if enableValidationLayers then
      { self with
        calls := self.calls ++
          DestroyDebugUtilsMessengerEXT self.m_instance self.m_debugMessenger }
    else
      self
  let self := { self with calls := self.calls ++ [DeviceCall.destroySurface self.m_surface] }
  let self := { self with calls := self.calls ++ [DeviceCall.destroyInstance] }
  let self := { self with calls := self.calls ++ [DeviceCall.glfwDestroyWindow] }
  let self := { self with calls := self.calls ++ [DeviceCall.glfwTerminate] }
  self

/-! ## Frame loop and swap-chain recreation

The member functions of this section are declared in
`sandbox/17_swap_chain_recreation/17_swap_chain_recreation.h`; their bodies
are not part of the sources at hand, so they follow the specification
(sections 4.1 to 4.4). -/

/-- Modelled from the spec: the body of `cleanupSwapChain`, of which the
sources hold the declaration only. Section 4.4: "destroy per-image
framebuffers, destroy image views, destroy the chain object"; section 4.1:
teardown "destroys views then the chain object; idempotent, safe to call on a
partially-built chain". What is destroyed is forgotten (the lists are emptied
and the chain handle is nulled), and a null chain is not destroyed. -/
def cleanupSwapChain (self : HelloTriangleApplication) : HelloTriangleApplication :=
  let self := { self with
    calls := self.calls ++ self.m_swapChainFramebuffers.map DeviceCall.destroyFramebuffer
    m_swapChainFramebuffers := [] }
  let self := { self with
    calls := self.calls ++ self.m_swapChainImageViews.map DeviceCall.destroyImageView
    m_swapChainImageViews := [] }
  if self.m_swapChain = VK_NULL_HANDLE then
    self
  else
    { self with
      calls := self.calls ++ [DeviceCall.destroySwapchain self.m_swapChain]
      m_swapChain := VK_NULL_HANDLE
      m_swapChainImages := [] }

/-- Modelled from the spec: the loop of `createFramebuffers` (declaration
only in the sources). Section 3: one per-image resource per chain image,
"referencing the chain's image view"; a creation the device rejects is
fatal. -/
def createFramebuffers.loop :
    List VkImageView → HelloTriangleApplication → HelloTriangleApplication × Outcome
  | [], self => (self, Outcome.ok)
  | view :: rest, self =>
    let created := self.m_device.vkCreateFramebuffer self.calls view
    let self : HelloTriangleApplication :=
      { self with
        calls := self.calls ++ [DeviceCall.createFramebuffer view created.1 created.2] }
    if created.1 ≠ VK_SUCCESS then
      (self, Outcome.threw (Exception.runtime_error "failed to create framebuffer!"))
    else
      createFramebuffers.loop rest
        { self with m_swapChainFramebuffers := self.m_swapChainFramebuffers ++ [created.2] }

/-- Modelled from the spec: `createFramebuffers` (declaration only in the
sources): the per-image resources are rebuilt from the current views. -/
def createFramebuffers (self : HelloTriangleApplication) :
    HelloTriangleApplication × Outcome :=
  createFramebuffers.loop self.m_swapChainImageViews
    { self with m_swapChainFramebuffers := [] }

/-- Modelled from the spec: the wait of `recreateSwapChain` on a minimised
window, section 4.4: "if the reported extent is degenerate (zero width or
height), suspend recreation and poll until a non-zero extent is observed".
Each poll takes the next of the window's pending sizes; `none` when the sizes
run out with the extent still degenerate, that is when the wait never ends. -/
def waitForNonZeroExtent :
    List (Int × Int) → GLFWwindow → Option (GLFWwindow × List (Int × Int))
  | [], window =>
    if window.framebufferWidth = 0 ∨ window.framebufferHeight = 0 then none
    else some (window, [])
  | size :: later, window =>
    if window.framebufferWidth = 0 ∨ window.framebufferHeight = 0 then
      waitForNonZeroExtent later ⟨size.1, size.2⟩
    else
      some (window, size :: later)

/-- Modelled from the spec: the body of `recreateSwapChain` (declaration only
in the sources), section 4.4: "wait for the device to go idle, destroy
per-image framebuffers, destroy image views, destroy the chain object, if the
reported extent is degenerate suspend recreation and poll until a non-zero
extent is observed, rebuild the chain, rebuild the views, rebuild per-image
framebuffers. The FrameSlotRing is untouched. Failure to rebuild is a fatal
condition surfaced to the caller". The chain and the views are rebuilt by
`createSwapChain` and `createImageViews`. This is the protocol once a trigger
has been seen; whether it runs is decided in `drawFrame`. -/
def recreateSwapChain (self : HelloTriangleApplication) :
    HelloTriangleApplication × Outcome :=
  let self := { self with calls := self.calls ++ [DeviceCall.deviceWaitIdle] }
  let self := cleanupSwapChain self
  match waitForNonZeroExtent self.windowEvents self.m_window with
  | none => (self, Outcome.blocked)
  | some (window, later) =>
    let self := { self with m_window := window, windowEvents := later }
    let built := createSwapChain self
    if built.2 ≠ Outcome.ok then
      built
    else
      let viewed := createImageViews built.1
      if viewed.2 ≠ Outcome.ok then
        viewed
      else
        createFramebuffers viewed.1

/-- Modelled from the spec: the step "Advance" of section 4.3,
"cursor = (cursor + 1) mod ring depth", the depth being the number of frame
slots. -/
def drawFrame.advance (self : HelloTriangleApplication) : HelloTriangleApplication :=
  { self with m_currentFrame := (self.m_currentFrame + 1) % self.m_inFlightFences.length }

/-- Modelled from the spec: the body of `drawFrame` (declaration only in the
sources), the per-frame protocol of section 4.3.
1. Wait on the fence of the current slot (the wait is taken to return: work
   that was submitted completes).
2. Acquire with the slot's image-acquired semaphore: on out-of-date "skip
   straight to Recreation, abandon this frame without resetting the fence"; on
   suboptimal "proceed this frame, but schedule Recreation after presenting";
   any other result than success is fatal.
3. Reset the slot's fence and re-record the slot's command buffer against the
   acquired image and the current chain extent.
4. Submit; a rejected submission is fatal.
5. Present: out-of-date, suboptimal, a recreation scheduled at Acquire or a
   pending resize flag trigger Recreation; any other failure is fatal.
6. Advance the cursor.
The slot of every call is the cursor `m_currentFrame`. -/
def drawFrame (self : HelloTriangleApplication) : HelloTriangleApplication × Outcome :=
  let slot := self.m_currentFrame
  let self := { self with calls := self.calls ++ [DeviceCall.waitForFences slot] }
  let acquired := self.m_device.vkAcquireNextImageKHR self.calls
  let self := { self with
    calls := self.calls ++ [DeviceCall.acquireNextImage slot acquired.1 acquired.2] }
  if acquired.1 = VK_ERROR_OUT_OF_DATE_KHR then
    recreateSwapChain self
  else if acquired.1 ≠ VK_SUCCESS ∧ acquired.1 ≠ VK_SUBOPTIMAL_KHR then
    (self, Outcome.threw (Exception.runtime_error "failed to acquire swap chain image!"))
  else
    let self := { self with calls := self.calls ++ [DeviceCall.resetFences slot] }
    let self := { self with
      calls := self.calls ++
        [DeviceCall.recordCommandBuffer slot acquired.2 self.m_swapChainExtent] }
    let submitted := self.m_device.vkQueueSubmit self.calls
    let self := { self with calls := self.calls ++ [DeviceCall.queueSubmit slot submitted] }
    if submitted ≠ VK_SUCCESS then
      (self, Outcome.threw (Exception.runtime_error "failed to submit draw command buffer!"))
    else
      let presented := self.m_device.vkQueuePresentKHR self.calls
      let self := { self with
        calls := self.calls ++ [DeviceCall.queuePresent slot acquired.2 presented] }
      if presented = VK_ERROR_OUT_OF_DATE_KHR ∨ presented = VK_SUBOPTIMAL_KHR ∨
          acquired.1 = VK_SUBOPTIMAL_KHR ∨ self.m_framebufferResized = true then
        let self := { self with m_framebufferResized := false }
        let recreated := recreateSwapChain self
        if recreated.2 ≠ Outcome.ok then
          recreated
        else
          (drawFrame.advance recreated.1, Outcome.ok)
      else if presented ≠ VK_SUCCESS then
        (self, Outcome.threw (Exception.runtime_error "failed to present swap chain image!"))
      else
        (drawFrame.advance self, Outcome.ok)

/-- Modelled from the spec: the render loop of the application driver (section
6: `render_frame()` "runs one iteration", and a fatal error makes the caller
"terminate the render loop"): up to `frames` calls of `drawFrame`, stopping at
the first one that does not end normally. -/
def renderFrames : Nat → HelloTriangleApplication → HelloTriangleApplication × Outcome
  | 0, self => (self, Outcome.ok)
  | frames + 1, self =>
    let drawn := drawFrame self
    if drawn.2 ≠ Outcome.ok then drawn else renderFrames frames drawn.1

/-- Modelled from the spec: a sequence of `count` Recreation cycles, each
started from the state the previous one left. -/
def recreateSwapChainTimes : Nat → HelloTriangleApplication → HelloTriangleApplication
  | 0, self => self
  | count + 1, self => recreateSwapChainTimes count (recreateSwapChain self).1

end HelloTriangleApplication

/-! ## Notions used to state the properties -/

/-- One step of the bookkeeping of live image views: a successful creation adds
its handle, a destruction removes it. -/
def liveImageViews.step (live : List VkImageView) : DeviceCall → List VkImageView
  | DeviceCall.createImageView _ result view =>
    if result = VK_SUCCESS then live ++ [view] else live
  | DeviceCall.destroyImageView view => live.erase view
  | _ => live

/-- The image views that a history of device calls has created and not
destroyed. -/
def liveImageViews (calls : List DeviceCall) : List VkImageView :=
  calls.foldl liveImageViews.step []

/-- The preferred surface format of `chooseSwapSurfaceFormat`. -/
def isPreferredFormat (f : VkSurfaceFormatKHR) : Prop :=
  f.format = VK_FORMAT_B8G8R8A8_UNORM ∧ f.colorSpace = VK_COLOR_SPACE_SRGB_NONLINEAR_KHR

instance (f : VkSurfaceFormatKHR) : Decidable (isPreferredFormat f) := by
  unfold isPreferredFormat; infer_instance

/-- The creation requests for a swap chain in a history of device calls. -/
def swapchainRequests (calls : List DeviceCall) : List VkSwapchainCreateInfoKHR :=
  calls.filterMap fun call =>
    match call with
    | DeviceCall.createSwapchain createInfo _ _ => some createInfo
    | _ => none

/-- The device calls that one run of `createSwapChain` adds to the history. -/
def HelloTriangleApplication.createSwapChain.newCalls (self : HelloTriangleApplication) :
    List DeviceCall :=
  (HelloTriangleApplication.createSwapChain self).1.calls.drop self.calls.length

/-- The swap-chain creation requests that one run of `createSwapChain` makes. -/
def HelloTriangleApplication.createSwapChain.requests (self : HelloTriangleApplication) :
    List VkSwapchainCreateInfoKHR :=
  swapchainRequests (HelloTriangleApplication.createSwapChain.newCalls self)

/-- The calls that rebuild or tear down the chain and its per-image resources;
none of them touches a fence, a queue or the acquisition of an image. -/
def DeviceCall.isRebuildCall : DeviceCall → Bool
  | DeviceCall.createSwapchain _ _ _ => true
  | DeviceCall.getSwapchainImages _ _ => true
  | DeviceCall.createImageView _ _ _ => true
  | DeviceCall.destroyImageView _ => true
  | DeviceCall.destroySwapchain _ => true
  | DeviceCall.createFramebuffer _ _ _ => true
  | DeviceCall.destroyFramebuffer _ => true
  | _ => false

/-- The device calls that one run of `drawFrame` adds to the history. -/
def HelloTriangleApplication.drawFrame.newCalls (self : HelloTriangleApplication) :
    List DeviceCall :=
  (HelloTriangleApplication.drawFrame self).1.calls.drop self.calls.length

/-- The device calls that a run of `renderFrames` adds to the history. -/
def HelloTriangleApplication.renderFrames.newCalls (frames : Nat)
    (self : HelloTriangleApplication) : List DeviceCall :=
  (HelloTriangleApplication.renderFrames frames self).1.calls.drop self.calls.length

/-- The frame slots: the image-available semaphores, the render-finished
semaphores, the in-flight fences and the command buffers. -/
def HelloTriangleApplication.frameSlots (self : HelloTriangleApplication) :
    List Nat × List Nat × List Nat × List Nat :=
  (self.m_imageAvailableSemaphores, self.m_renderFinishedSemaphores,
    self.m_inFlightFences, self.m_commandBuffers)

/-- The state `after` comes from `before` by chain rebuilding only: the frame
slots are the same and the history has grown by rebuild calls. -/
def HelloTriangleApplication.RebuiltFrom (before after : HelloTriangleApplication) : Prop :=
  after.frameSlots = before.frameSlots ∧
    ∃ new : List DeviceCall,
      after.calls = before.calls ++ new ∧ ∀ c ∈ new, c.isRebuildCall = true

/-- The calls that reuse a frame slot: the reset of its fence and the
re-recording of its command buffer. -/
def DeviceCall.reusesSlot : DeviceCall → Bool
  | DeviceCall.resetFences _ => true
  | DeviceCall.recordCommandBuffer _ _ _ => true
  | _ => false

/-- In a history of calls, every reset of the fence of a slot comes directly
after the acquisition that directly follows a wait on the fence of that slot,
and every re-recording of the command buffer of a slot comes directly after
that reset: between the wait and the reuse nothing is submitted. -/
def FenceWaitedBeforeReuse (calls : List DeviceCall) : Prop :=
  (∀ pre slot post, calls = pre ++ DeviceCall.resetFences slot :: post →
    ∃ before result imageIndex,
      pre = before ++
        [DeviceCall.waitForFences slot,
          DeviceCall.acquireNextImage slot result imageIndex]) ∧
  (∀ pre slot imageIndex extent post,
    calls = pre ++ DeviceCall.recordCommandBuffer slot imageIndex extent :: post →
    ∃ before result,
      pre = before ++
        [DeviceCall.waitForFences slot,
          DeviceCall.acquireNextImage slot result imageIndex,
          DeviceCall.resetFences slot])

/-- The device calls that one run of `cleanup` adds to the history. -/
def HelloTriangleApplication.cleanup.newCalls (enableValidationLayers : Bool)
    (self : HelloTriangleApplication) : List DeviceCall :=
  (HelloTriangleApplication.cleanup enableValidationLayers self).calls.drop self.calls.length

/-- The image views whose destruction a history of calls asks for, in the order
of the calls. -/
def destroyedImageViews (calls : List DeviceCall) : List VkImageView :=
  calls.filterMap fun call =>
    match call with
    | DeviceCall.destroyImageView view => some view
    | _ => none

/-- The swap chains whose destruction a history of calls asks for. -/
def destroyedSwapchains (calls : List DeviceCall) : List VkSwapchainKHR :=
  calls.filterMap fun call =>
    match call with
    | DeviceCall.destroySwapchain swapChain => some swapChain
    | _ => none

/-- The device calls that one run of `createImageViews` adds to the history. -/
def HelloTriangleApplication.createImageViews.newCalls (self : HelloTriangleApplication) :
    List DeviceCall :=
  (HelloTriangleApplication.createImageViews self).1.calls.drop self.calls.length

/-! ## Concrete devices and application states used as test inputs -/

/-- A logical device that accepts every request; the handle it hands out is the
number of calls made so far plus one, and every chain has three images. -/
def acceptingDevice : VkDevice :=
  { vkCreateSwapchainKHR := fun calls _ => (VK_SUCCESS, calls.length + 1)
    vkGetSwapchainImagesKHR := fun _ _ => [101, 102, 103]
    vkCreateImageView := fun calls _ => (VK_SUCCESS, calls.length + 1) }

/-- A logical device that rejects the creation of a swap chain
(`VK_ERROR_INITIALIZATION_FAILED`). -/
def rejectingDevice : VkDevice :=
  { vkCreateSwapchainKHR := fun _ _ => (-3, VK_NULL_HANDLE)
    vkGetSwapchainImagesKHR := fun _ _ => []
    vkCreateImageView := fun calls _ => (VK_SUCCESS, calls.length + 1) }

/-- A logical device whose second image-view creation fails
(`VK_ERROR_OUT_OF_DEVICE_MEMORY`). -/
def secondViewFailsDevice : VkDevice :=
  { vkCreateSwapchainKHR := fun calls _ => (VK_SUCCESS, calls.length + 1)
    vkGetSwapchainImagesKHR := fun _ _ => [101, 102]
    vkCreateImageView := fun calls _ =>
      if calls.length = 1 then (-2, VK_NULL_HANDLE) else (VK_SUCCESS, calls.length + 7) }

/-- Surface capabilities of a window whose size is fixed by the surface. -/
def fixedCapabilities : VkSurfaceCapabilitiesKHR :=
  { minImageCount := 2
    maxImageCount := 8
    currentExtent := ⟨800, 600⟩
    minImageExtent := ⟨1, 1⟩
    maxImageExtent := ⟨4096, 4096⟩
    currentTransform := 1 }

/-- Surface capabilities whose current extent is the follow-the-window value. -/
def followWindowCapabilities : VkSurfaceCapabilitiesKHR :=
  { fixedCapabilities with currentExtent := ⟨4294967295, 4294967295⟩ }

/-- Surface capabilities whose minimum image count is the largest
`unsigned int` and whose maximum is unbounded. -/
def wrappingCapabilities : VkSurfaceCapabilitiesKHR :=
  { fixedCapabilities with minImageCount := 4294967295, maxImageCount := 0 }

/-- Surface capabilities whose current extent lies outside the reported
bounds. -/
def oversizedCapabilities : VkSurfaceCapabilitiesKHR :=
  { fixedCapabilities with currentExtent := ⟨1920, 1080⟩, maxImageExtent := ⟨1024, 768⟩ }

/-- A physical device with the given capabilities and queue families, two
surface formats and two present modes. -/
def physicalDeviceWith (capabilities : VkSurfaceCapabilitiesKHR)
    (queueFamilies : List VkQueueFamilyProperties) : VkPhysicalDevice :=
  { queueFamilies := queueFamilies
    surfaceCapabilities := capabilities
    surfaceFormats :=
      [⟨VK_FORMAT_R8G8B8A8_UNORM, VK_COLOR_SPACE_SRGB_NONLINEAR_KHR⟩,
       ⟨VK_FORMAT_B8G8R8A8_UNORM, VK_COLOR_SPACE_SRGB_NONLINEAR_KHR⟩]
    surfacePresentModes := [VK_PRESENT_MODE_FIFO_KHR, VK_PRESENT_MODE_MAILBOX_KHR]
    availableExtensions := [⟨"VK_KHR_maintenance1", 2⟩, ⟨"VK_KHR_swapchain", 70⟩] }

/-- Queue families where one family does graphics and presentation. -/
def sharedQueueFamilies : List VkQueueFamilyProperties := [⟨1, true⟩]

/-- Queue families where graphics (family 0) and presentation (family 1) are
separate. -/
def splitQueueFamilies : List VkQueueFamilyProperties := [⟨1, false⟩, ⟨0, true⟩]

/-- A freshly started application on the given logical and physical device,
with an 800 x 600 window and nothing created yet. -/
def freshApplication (device : VkDevice) (physicalDevice : VkPhysicalDevice) :
    HelloTriangleApplication :=
  { m_window := ⟨800, 600⟩
    m_physicalDevice := some physicalDevice
    m_device := device
    m_swapChain := VK_NULL_HANDLE
    m_swapChainImages := []
    m_swapChainImageFormat := 0
    m_swapChainExtent := ⟨0, 0⟩
    m_swapChainImageViews := []
    calls := [] }

/-- Queue families with a graphics family and no family that can present. -/
def graphicsOnlyQueueFamilies : List VkQueueFamilyProperties := [⟨1, false⟩]

/-- An application whose chain has been created with the given images and
whose views are still to be created. -/
def applicationWithImages (device : VkDevice) (images : List VkImage) :
    HelloTriangleApplication :=
  { freshApplication device (physicalDeviceWith fixedCapabilities sharedQueueFamilies) with
    m_swapChain := 1
    m_swapChainImages := images
    m_swapChainImageFormat := VK_FORMAT_B8G8R8A8_UNORM
    m_swapChainExtent := ⟨800, 600⟩ }

/-- A physical device that is not suitable: it lacks the swap-chain
extension. -/
def unsuitableDevice : VkPhysicalDevice :=
  { physicalDeviceWith fixedCapabilities sharedQueueFamilies with
    availableExtensions := [⟨"VK_KHR_maintenance1", 2⟩] }

/-- An application that has created its instance and nothing else. -/
def applicationWithDevices (devices : List VkPhysicalDevice) : HelloTriangleApplication :=
  { freshApplication acceptingDevice unsuitableDevice with
    m_instance := { physicalDevices := devices }
    m_physicalDevice := none }

/-- An application at shutdown: chain handle 1, three images with the views 7,
8 and 9, render pass 21 and pipeline layout 22. -/
def applicationAtShutdown : HelloTriangleApplication :=
  { applicationWithImages acceptingDevice [101, 102, 103] with
    m_swapChainImageViews := [7, 8, 9]
    m_renderPass := 21
    m_pipelineLayout := 22
    m_surface := 31
    m_debugMessenger := 32 }

/-- A logical device whose first image acquisition (the second call of the
history) reports out-of-date and which accepts everything else. -/
def outOfDateDevice : VkDevice :=
  { acceptingDevice with
    vkAcquireNextImageKHR := fun calls =>
      if calls.length = 1 then (VK_ERROR_OUT_OF_DATE_KHR, 0) else (VK_SUCCESS, 0) }

/-- An application in its render loop: a chain of two images with their views
and framebuffers, and a ring of two frame slots. -/
def applicationInFlight (device : VkDevice) : HelloTriangleApplication :=
  { applicationWithImages device [101, 102] with
    m_swapChainImageViews := [7, 8]
    m_swapChainFramebuffers := [11, 12]
    m_commandBuffers := [51, 52]
    m_imageAvailableSemaphores := [61, 62]
    m_renderFinishedSemaphores := [71, 72]
    m_inFlightFences := [81, 82] }

/-! ## Format and present-mode selection -/

namespace HelloTriangleApplication

theorem chooseSwapSurfaceFormat.loop_none (l : List VkSurfaceFormatKHR)
    (h : ∀ g ∈ l, ¬ isPreferredFormat g) : chooseSwapSurfaceFormat.loop l = none := by
  induction l with
  | nil => rfl
  | cons a rest ih =>
    have ha : ¬ isPreferredFormat a := h a (List.mem_cons_self a rest)
    have hrest : ∀ g ∈ rest, ¬ isPreferredFormat g :=
      fun g hg => h g (List.mem_cons_of_mem a hg)
    unfold isPreferredFormat at ha
    simp only [chooseSwapSurfaceFormat.loop, if_neg ha]
    exact ih hrest

theorem chooseSwapSurfaceFormat.loop_first (pre post : List VkSurfaceFormatKHR)
    (f : VkSurfaceFormatKHR) (hpre : ∀ g ∈ pre, ¬ isPreferredFormat g)
    (hf : isPreferredFormat f) : chooseSwapSurfaceFormat.loop (pre ++ f :: post) = some f := by
  induction pre with
  | nil =>
    unfold isPreferredFormat at hf
    simp only [List.nil_append, chooseSwapSurfaceFormat.loop, if_pos hf]
  | cons a rest ih =>
    have ha : ¬ isPreferredFormat a := hpre a (List.mem_cons_self a rest)
    have hrest : ∀ g ∈ rest, ¬ isPreferredFormat g :=
      fun g hg => hpre g (List.mem_cons_of_mem a hg)
    unfold isPreferredFormat at ha
    simp only [List.cons_append, chooseSwapSurfaceFormat.loop, if_neg ha]
    exact ih hrest

/-- C1: on a non-empty list of available formats `chooseSwapSurfaceFormat`
returns the first entry that is `VK_FORMAT_B8G8R8A8_UNORM` with
`VK_COLOR_SPACE_SRGB_NONLINEAR_KHR` (the entry `f` of any split
`pre ++ f :: post` where nothing in `pre` is preferred), and the first entry of
the list when no entry is preferred; on the two-entry list of the example,
with the first entry an R8G8B8A8 format (UNORM or SRGB) in the sRGB colour
space, it returns the B8G8R8A8 entry. -/
theorem chooseSwapSurfaceFormat_spec (availableFormats : List VkSurfaceFormatKHR)
    (hne : availableFormats ≠ []) :
    (∀ pre f post, availableFormats = pre ++ f :: post →
        (∀ g ∈ pre, ¬ isPreferredFormat g) → isPreferredFormat f →
        chooseSwapSurfaceFormat availableFormats = some f) ∧
    ((∀ g ∈ availableFormats, ¬ isPreferredFormat g) →
        chooseSwapSurfaceFormat availableFormats = some (availableFormats.head hne)) ∧
    chooseSwapSurfaceFormat
        [⟨VK_FORMAT_R8G8B8A8_UNORM, VK_COLOR_SPACE_SRGB_NONLINEAR_KHR⟩,
         ⟨VK_FORMAT_B8G8R8A8_UNORM, VK_COLOR_SPACE_SRGB_NONLINEAR_KHR⟩]
      = some ⟨VK_FORMAT_B8G8R8A8_UNORM, VK_COLOR_SPACE_SRGB_NONLINEAR_KHR⟩ ∧
    chooseSwapSurfaceFormat
        [⟨VK_FORMAT_R8G8B8A8_SRGB, VK_COLOR_SPACE_SRGB_NONLINEAR_KHR⟩,
         ⟨VK_FORMAT_B8G8R8A8_UNORM, VK_COLOR_SPACE_SRGB_NONLINEAR_KHR⟩]
      = some ⟨VK_FORMAT_B8G8R8A8_UNORM, VK_COLOR_SPACE_SRGB_NONLINEAR_KHR⟩ := by
  refine ⟨?_, ?_, by decide, by decide⟩
  · intro pre f post hsplit hpre hf
    subst hsplit
    simp only [chooseSwapSurfaceFormat, chooseSwapSurfaceFormat.loop_first pre post f hpre hf]
  · intro hnone
    cases availableFormats with
    | nil => exact absurd rfl hne
    | cons a rest =>
      simp only [chooseSwapSurfaceFormat,
        chooseSwapSurfaceFormat.loop_none (a :: rest) hnone]
      simp

/-- Witness of C1 at the two-entry list of the specification's example. -/
theorem chooseSwapSurfaceFormat_spec_witness :
    chooseSwapSurfaceFormat
        [⟨VK_FORMAT_R8G8B8A8_UNORM, VK_COLOR_SPACE_SRGB_NONLINEAR_KHR⟩,
         ⟨VK_FORMAT_B8G8R8A8_UNORM, VK_COLOR_SPACE_SRGB_NONLINEAR_KHR⟩]
      = some ⟨VK_FORMAT_B8G8R8A8_UNORM, VK_COLOR_SPACE_SRGB_NONLINEAR_KHR⟩ ∧
    chooseSwapSurfaceFormat
        [⟨VK_FORMAT_R8G8B8A8_UNORM, VK_COLOR_SPACE_SRGB_NONLINEAR_KHR⟩,
         ⟨VK_FORMAT_R8G8B8A8_SRGB, VK_COLOR_SPACE_SRGB_NONLINEAR_KHR⟩]
      = some ⟨VK_FORMAT_R8G8B8A8_UNORM, VK_COLOR_SPACE_SRGB_NONLINEAR_KHR⟩ :=
  ⟨(chooseSwapSurfaceFormat_spec
      [⟨VK_FORMAT_R8G8B8A8_UNORM, VK_COLOR_SPACE_SRGB_NONLINEAR_KHR⟩,
       ⟨VK_FORMAT_B8G8R8A8_UNORM, VK_COLOR_SPACE_SRGB_NONLINEAR_KHR⟩]
      (by decide)).1
      [⟨VK_FORMAT_R8G8B8A8_UNORM, VK_COLOR_SPACE_SRGB_NONLINEAR_KHR⟩]
      ⟨VK_FORMAT_B8G8R8A8_UNORM, VK_COLOR_SPACE_SRGB_NONLINEAR_KHR⟩ [] rfl
      (by decide) (by decide),
   (chooseSwapSurfaceFormat_spec
      [⟨VK_FORMAT_R8G8B8A8_UNORM, VK_COLOR_SPACE_SRGB_NONLINEAR_KHR⟩,
       ⟨VK_FORMAT_R8G8B8A8_SRGB, VK_COLOR_SPACE_SRGB_NONLINEAR_KHR⟩]
      (by decide)).2.1 (by decide)⟩

/-- C2: for every list of available present modes, the empty one included,
`chooseSwapPresentMode` returns `VK_PRESENT_MODE_MAILBOX_KHR` when the list
contains it and `VK_PRESENT_MODE_FIFO_KHR` otherwise; `[FIFO, MAILBOX]` gives
MAILBOX and `[FIFO]` gives FIFO. -/
theorem chooseSwapPresentMode_spec (availablePresentModes : List VkPresentModeKHR) :
    chooseSwapPresentMode availablePresentModes =
        (if VK_PRESENT_MODE_MAILBOX_KHR ∈ availablePresentModes
          then VK_PRESENT_MODE_MAILBOX_KHR else VK_PRESENT_MODE_FIFO_KHR) ∧
    chooseSwapPresentMode [] = VK_PRESENT_MODE_FIFO_KHR ∧
    chooseSwapPresentMode [VK_PRESENT_MODE_FIFO_KHR, VK_PRESENT_MODE_MAILBOX_KHR]
      = VK_PRESENT_MODE_MAILBOX_KHR ∧
    chooseSwapPresentMode [VK_PRESENT_MODE_FIFO_KHR] = VK_PRESENT_MODE_FIFO_KHR := by
  refine ⟨?_, by decide, by decide, by decide⟩
  induction availablePresentModes with
  | nil => simp [chooseSwapPresentMode]
  | cons a rest ih =>
    by_cases ha : a = VK_PRESENT_MODE_MAILBOX_KHR
    · simp [chooseSwapPresentMode, ha]
    · have hne : ¬ VK_PRESENT_MODE_MAILBOX_KHR = a := fun h => ha h.symm
      simp only [chooseSwapPresentMode, if_neg ha, ih, List.mem_cons, hne, false_or]

end HelloTriangleApplication

/-! ## What `createSwapChain` asks of the device -/

namespace HelloTriangleApplication

/-- The request of `createSwapChain` written out field by field. -/
theorem createSwapChain.newCalls_eq (self : HelloTriangleApplication)
    (pd : VkPhysicalDevice) (surfaceFormat : VkSurfaceFormatKHR) (g p : Nat)
    (hpd : self.m_physicalDevice = some pd)
    (hfmt : chooseSwapSurfaceFormat (querySwapChainSupport pd).formats = some surfaceFormat)
    (hidx : findQueueFamilies pd = ⟨some g, some p⟩) :
    ∃ (result : VkResult) (swapChain : VkSwapchainKHR) (tail : List DeviceCall),
      (createSwapChain self).1.calls =
        self.calls ++
          DeviceCall.createSwapchain
            { imageFormat := surfaceFormat.format
              imageColorSpace := surfaceFormat.colorSpace
              presentMode := chooseSwapPresentMode (querySwapChainSupport pd).presentModes
              imageExtent := chooseSwapExtent self.m_window pd.surfaceCapabilities
              minImageCount := createSwapChain.imageCount pd.surfaceCapabilities
              imageArrayLayers := 1
              imageUsage := VK_IMAGE_USAGE_COLOR_ATTACHMENT_BIT
              imageSharingMode :=
                if g ≠ p then VK_SHARING_MODE_CONCURRENT else VK_SHARING_MODE_EXCLUSIVE
              queueFamilyIndexCount := if g ≠ p then 2 else 0
              pQueueFamilyIndices := if g ≠ p then [g, p] else []
              preTransform := pd.surfaceCapabilities.currentTransform
              compositeAlpha := VK_COMPOSITE_ALPHA_OPAQUE_BIT_KHR
              clipped := VK_TRUE
              oldSwapchain := VK_NULL_HANDLE } result swapChain :: tail ∧
      (∀ call ∈ tail, ∃ sc images, call = DeviceCall.getSwapchainImages sc images) := by
  have hg : (findQueueFamilies pd).graphicsFamily = some g := by rw [hidx]
  have hp : (findQueueFamilies pd).presentFamily = some p := by rw [hidx]
  have hcaps : (querySwapChainSupport pd).capabilities = pd.surfaceCapabilities := rfl
  unfold createSwapChain
  simp only [hpd, hfmt, hg, hp, hcaps, createSwapChain.sharing]
  by_cases hgp : g = p
  · subst hgp
    simp only [ne_eq, not_true_eq_false, if_false]
    split
    · exact ⟨_, _, [], rfl, by simp⟩
    · refine ⟨_, _, [_, _], by simp only [List.append_assoc]; rfl, fun call hc => ?_⟩
      rcases List.mem_cons.mp hc with h | h
      · exact ⟨_, _, h⟩
      · exact ⟨_, _, List.mem_singleton.mp h⟩
  · have hsome : ¬ (some g = some p) := fun h => hgp (Option.some.inj h)
    simp only [ne_eq, hsome, hgp, not_false_eq_true, if_true]
    split
    · exact ⟨_, _, [], rfl, by simp⟩
    · refine ⟨_, _, [_, _], by simp only [List.append_assoc]; rfl, fun call hc => ?_⟩
      rcases List.mem_cons.mp hc with h | h
      · exact ⟨_, _, h⟩
      · exact ⟨_, _, List.mem_singleton.mp h⟩

/-- When a suitable device is stored, one run of `createSwapChain` makes exactly
one creation request, the one written out here. -/
theorem createSwapChain.requests_eq (self : HelloTriangleApplication)
    (pd : VkPhysicalDevice) (surfaceFormat : VkSurfaceFormatKHR) (g p : Nat)
    (hpd : self.m_physicalDevice = some pd)
    (hfmt : chooseSwapSurfaceFormat (querySwapChainSupport pd).formats = some surfaceFormat)
    (hidx : findQueueFamilies pd = ⟨some g, some p⟩) :
    createSwapChain.requests self =
      [{ imageFormat := surfaceFormat.format
         imageColorSpace := surfaceFormat.colorSpace
         presentMode := chooseSwapPresentMode (querySwapChainSupport pd).presentModes
         imageExtent := chooseSwapExtent self.m_window pd.surfaceCapabilities
         minImageCount := createSwapChain.imageCount pd.surfaceCapabilities
         imageArrayLayers := 1
         imageUsage := VK_IMAGE_USAGE_COLOR_ATTACHMENT_BIT
         imageSharingMode :=
           if g ≠ p then VK_SHARING_MODE_CONCURRENT else VK_SHARING_MODE_EXCLUSIVE
         queueFamilyIndexCount := if g ≠ p then 2 else 0
         pQueueFamilyIndices := if g ≠ p then [g, p] else []
         preTransform := pd.surfaceCapabilities.currentTransform
         compositeAlpha := VK_COMPOSITE_ALPHA_OPAQUE_BIT_KHR
         clipped := VK_TRUE
         oldSwapchain := VK_NULL_HANDLE }] := by
  obtain ⟨result, swapChain, tail, hcalls, htail⟩ :=
    createSwapChain.newCalls_eq self pd surfaceFormat g p hpd hfmt hidx
  have htail_nil : swapchainRequests tail = [] := by
    unfold swapchainRequests
    rw [List.filterMap_eq_nil_iff]
    intro call hc
    obtain ⟨sc, images, hcall⟩ := htail call hc
    subst hcall
    rfl
  unfold createSwapChain.requests createSwapChain.newCalls
  rw [hcalls, List.drop_left]
  have hcons : ∀ (c : DeviceCall) (t : List DeviceCall) (i : VkSwapchainCreateInfoKHR)
      (r : VkResult) (h : VkSwapchainKHR), c = DeviceCall.createSwapchain i r h →
      swapchainRequests (c :: t) = i :: swapchainRequests t := by
    intro c t i r h hc
    subst hc
    simp [swapchainRequests]
  rw [hcons _ tail _ result swapChain rfl, htail_nil]

/-- A run of `createSwapChain` that makes a creation request started from a
stored physical device with a non-empty format list and complete queue-family
indices. -/
theorem createSwapChain.requests_inv (self : HelloTriangleApplication)
    (info : VkSwapchainCreateInfoKHR) (h : info ∈ createSwapChain.requests self) :
    ∃ (pd : VkPhysicalDevice) (surfaceFormat : VkSurfaceFormatKHR) (g p : Nat),
      self.m_physicalDevice = some pd ∧
      chooseSwapSurfaceFormat (querySwapChainSupport pd).formats = some surfaceFormat ∧
      findQueueFamilies pd = ⟨some g, some p⟩ := by
  cases hpd : self.m_physicalDevice with
  | none =>
    exfalso
    simp [createSwapChain.requests, createSwapChain.newCalls, createSwapChain, hpd,
      swapchainRequests] at h
  | some pd =>
    cases hfmt : chooseSwapSurfaceFormat (querySwapChainSupport pd).formats with
    | none =>
      exfalso
      simp [createSwapChain.requests, createSwapChain.newCalls, createSwapChain, hpd, hfmt,
        swapchainRequests] at h
    | some surfaceFormat =>
      cases hg : (findQueueFamilies pd).graphicsFamily with
      | none =>
        exfalso
        simp [createSwapChain.requests, createSwapChain.newCalls, createSwapChain, hpd, hfmt,
          hg, swapchainRequests] at h
      | some g =>
        cases hp : (findQueueFamilies pd).presentFamily with
        | none =>
          exfalso
          simp [createSwapChain.requests, createSwapChain.newCalls, createSwapChain, hpd, hfmt,
            hg, hp, swapchainRequests] at h
        | some p =>
          refine ⟨pd, surfaceFormat, g, p, rfl, hfmt, ?_⟩
          cases hq : findQueueFamilies pd with
          | mk gf pf =>
            rw [hq] at hg hp
            simp only at hg hp
            rw [hg, hp]

end HelloTriangleApplication

/-! ## The requested image count -/

namespace HelloTriangleApplication

theorem createSwapChain.imageCount_eq (capabilities : VkSurfaceCapabilitiesKHR)
    (hmin : capabilities.minImageCount < 2 ^ 32 - 1) :
    createSwapChain.imageCount capabilities =
      (if capabilities.maxImageCount = 0 ∨
          capabilities.minImageCount + 1 ≤ capabilities.maxImageCount
        then capabilities.minImageCount + 1 else capabilities.maxImageCount) := by
  have hmod : (capabilities.minImageCount + 1) % 2 ^ 32 = capabilities.minImageCount + 1 :=
    Nat.mod_eq_of_lt (by omega)
  unfold createSwapChain.imageCount
  simp only [hmod]
  split <;> split <;> omega

/-- C3 (amended): when `minImageCount + 1` does not leave the range of
`unsigned int` (`minImageCount < 2^32 - 1`), the image count computed by
`createSwapChain`, and the `minImageCount` of every creation request it makes,
is `minImageCount + 1` when `maxImageCount` is 0 or
`minImageCount + 1 <= maxImageCount`, and `maxImageCount` otherwise. -/
theorem createSwapChain_imageCount_spec (capabilities : VkSurfaceCapabilitiesKHR)
    (hmin : capabilities.minImageCount < 2 ^ 32 - 1) :
    createSwapChain.imageCount capabilities =
      (if capabilities.maxImageCount = 0 ∨
          capabilities.minImageCount + 1 ≤ capabilities.maxImageCount
        then capabilities.minImageCount + 1 else capabilities.maxImageCount) ∧
    ∀ (self : HelloTriangleApplication) (pd : VkPhysicalDevice),
      self.m_physicalDevice = some pd → pd.surfaceCapabilities = capabilities →
      ∀ info ∈ createSwapChain.requests self,
        info.minImageCount =
          (if capabilities.maxImageCount = 0 ∨
              capabilities.minImageCount + 1 ≤ capabilities.maxImageCount
            then capabilities.minImageCount + 1 else capabilities.maxImageCount) := by
  refine ⟨createSwapChain.imageCount_eq capabilities hmin, ?_⟩
  intro self pd hpd hcaps info hinfo
  obtain ⟨pd2, surfaceFormat, g, p, hpd2, hfmt, hidx⟩ :=
    createSwapChain.requests_inv self info hinfo
  rw [createSwapChain.requests_eq self pd2 surfaceFormat g p hpd2 hfmt hidx,
    List.mem_singleton] at hinfo
  have hsame : pd2 = pd := Option.some.inj (hpd2.symm.trans hpd)
  subst hinfo
  subst hsame
  subst hcaps
  exact createSwapChain.imageCount_eq _ hmin

/-- Witness of C3: with `minImageCount = 2` and `maxImageCount = 8` the one
request of `createSwapChain` asks for 3 images. -/
theorem createSwapChain_imageCount_spec_witness :
    createSwapChain.imageCount fixedCapabilities = 3 ∧
    (createSwapChain.requests
      (freshApplication acceptingDevice
        (physicalDeviceWith fixedCapabilities sharedQueueFamilies))).map
      (fun info => info.minImageCount) = [3] := by
  have h := createSwapChain_imageCount_spec fixedCapabilities (by decide)
  refine ⟨h.1.trans (by decide), ?_⟩
  decide

/-- Counterexample to C3 as stated: with `minImageCount = 2^32 - 1` and
`maxImageCount = 0` (both 32-bit values, the maximum unbounded) the count that
`createSwapChain` computes and requests is 0, not `minImageCount + 1`. -/
theorem createSwapChain_imageCount_wraps :
    wrappingCapabilities.minImageCount < 2 ^ 32 ∧
    wrappingCapabilities.maxImageCount = 0 ∧
    createSwapChain.imageCount wrappingCapabilities = 0 ∧
    createSwapChain.imageCount wrappingCapabilities ≠
      wrappingCapabilities.minImageCount + 1 ∧
    (createSwapChain.requests
      (freshApplication acceptingDevice
        (physicalDeviceWith wrappingCapabilities sharedQueueFamilies))).map
      (fun info => info.minImageCount) = [0] := by
  refine ⟨by decide, by decide, by decide, by decide, by decide⟩

/-- C4 (amended): when `minImageCount + 1` does not leave the range of
`unsigned int` and `maxImageCount` is 0 or at least `minImageCount`, the image
count computed by `createSwapChain`, and the `minImageCount` of every creation
request it makes, is at least `minImageCount` and, when `maxImageCount` is not
0, at most `maxImageCount`. -/
theorem createSwapChain_imageCount_bounds (capabilities : VkSurfaceCapabilitiesKHR)
    (hmin : capabilities.minImageCount < 2 ^ 32 - 1)
    (hmax : capabilities.maxImageCount = 0 ∨
      capabilities.minImageCount ≤ capabilities.maxImageCount) :
    (capabilities.minImageCount ≤ createSwapChain.imageCount capabilities ∧
      (capabilities.maxImageCount ≠ 0 →
        createSwapChain.imageCount capabilities ≤ capabilities.maxImageCount)) ∧
    ∀ (self : HelloTriangleApplication) (pd : VkPhysicalDevice),
      self.m_physicalDevice = some pd → pd.surfaceCapabilities = capabilities →
      ∀ info ∈ createSwapChain.requests self,
        capabilities.minImageCount ≤ info.minImageCount ∧
        (capabilities.maxImageCount ≠ 0 →
          info.minImageCount ≤ capabilities.maxImageCount) := by
  have hcount : capabilities.minImageCount ≤ createSwapChain.imageCount capabilities ∧
      (capabilities.maxImageCount ≠ 0 →
        createSwapChain.imageCount capabilities ≤ capabilities.maxImageCount) := by
    rw [createSwapChain.imageCount_eq capabilities hmin]
    split <;> omega
  refine ⟨hcount, ?_⟩
  intro self pd hpd hcaps info hinfo
  obtain ⟨pd2, surfaceFormat, g, p, hpd2, hfmt, hidx⟩ :=
    createSwapChain.requests_inv self info hinfo
  rw [createSwapChain.requests_eq self pd2 surfaceFormat g p hpd2 hfmt hidx,
    List.mem_singleton] at hinfo
  have hsame : pd2 = pd := Option.some.inj (hpd2.symm.trans hpd)
  subst hinfo
  subst hsame
  subst hcaps
  exact hcount

/-- Witness of C4: with `minImageCount = 2` and `maxImageCount = 8` the
requested count lies between 2 and 8. -/
theorem createSwapChain_imageCount_bounds_witness :
    2 ≤ createSwapChain.imageCount fixedCapabilities ∧
    createSwapChain.imageCount fixedCapabilities ≤ 8 :=
  have h := (createSwapChain_imageCount_bounds fixedCapabilities (by decide)
    (Or.inr (by decide))).1
  ⟨h.1, h.2 (by decide)⟩

/-- Counterexample to C4 as stated: with `minImageCount = 2^32 - 1` and
`maxImageCount = 0` the premise of the claim holds and the requested count, 0,
is below `minImageCount`. -/
theorem createSwapChain_imageCount_below_min :
    (wrappingCapabilities.maxImageCount = 0 ∨
      wrappingCapabilities.minImageCount ≤ wrappingCapabilities.maxImageCount) ∧
    wrappingCapabilities.minImageCount < 2 ^ 32 ∧
    ¬ (wrappingCapabilities.minImageCount ≤
        createSwapChain.imageCount wrappingCapabilities) ∧
    (createSwapChain.requests
      (freshApplication acceptingDevice
        (physicalDeviceWith wrappingCapabilities sharedQueueFamilies))).all
      (fun info => decide (info.minImageCount < wrappingCapabilities.minImageCount)) = true ∧
    (createSwapChain.requests
      (freshApplication acceptingDevice
        (physicalDeviceWith wrappingCapabilities sharedQueueFamilies))).length = 1 := by
  refine ⟨by decide, by decide, by decide, by decide, by decide⟩

/-! ## The extent -/

theorem std_clamp_eq (v lo hi : Nat) (h : lo ≤ hi) : std_clamp v lo hi = max lo (min v hi) := by
  unfold std_clamp
  split
  · omega
  · split <;> omega

/-- C5: for capabilities with `minImageExtent <= maxImageExtent` on both axes,
`chooseSwapExtent` returns, when `currentExtent.width` is `2^32 - 1`, the
window's framebuffer size converted to `unsigned int` and clamped to
`[minImageExtent, maxImageExtent]` on each axis, and otherwise returns
`currentExtent` whatever the window's size is. -/
theorem chooseSwapExtent_spec (m_window : GLFWwindow)
    (capabilities : VkSurfaceCapabilitiesKHR)
    (hw : capabilities.minImageExtent.width ≤ capabilities.maxImageExtent.width)
    (hh : capabilities.minImageExtent.height ≤ capabilities.maxImageExtent.height) :
    (capabilities.currentExtent.width = 4294967295 →
      chooseSwapExtent m_window capabilities =
        ⟨max capabilities.minImageExtent.width
            (min (m_window.framebufferWidth % 4294967296).toNat
              capabilities.maxImageExtent.width),
         max capabilities.minImageExtent.height
            (min (m_window.framebufferHeight % 4294967296).toNat
              capabilities.maxImageExtent.height)⟩) ∧
    (capabilities.currentExtent.width ≠ 4294967295 →
      ∀ other : GLFWwindow,
        chooseSwapExtent other capabilities = capabilities.currentExtent) := by
  constructor
  · intro hsentinel
    have hs : ¬ capabilities.currentExtent.width ≠ UINT_MAX := by
      simp [UINT_MAX, hsentinel]
    simp only [chooseSwapExtent, if_neg hs, static_cast_unsigned,
      std_clamp_eq _ _ _ hw, std_clamp_eq _ _ _ hh]
    norm_num
  · intro hfixed other
    have hs : capabilities.currentExtent.width ≠ UINT_MAX := by
      simpa [UINT_MAX] using hfixed
    simp only [chooseSwapExtent, if_pos hs]

/-- Witness of C5: a follow-the-window surface with an 800 x 600 framebuffer
gives 800 x 600, and a surface with a fixed extent gives that extent for a
window of any size. -/
theorem chooseSwapExtent_spec_witness :
    chooseSwapExtent ⟨800, 600⟩ followWindowCapabilities = ⟨800, 600⟩ ∧
    chooseSwapExtent ⟨-1, 5000⟩ fixedCapabilities = ⟨800, 600⟩ :=
  ⟨((chooseSwapExtent_spec ⟨800, 600⟩ followWindowCapabilities (by decide) (by decide)).1
      (by decide)).trans (by decide),
   ((chooseSwapExtent_spec ⟨800, 600⟩ fixedCapabilities (by decide) (by decide)).2
      (by decide) ⟨-1, 5000⟩).trans (by decide)⟩

/-- The two ways `createSwapChain` ends: not normally, with the stored images,
format and extent untouched, or normally, with the chosen format and extent
stored. -/
theorem createSwapChain.ends (self : HelloTriangleApplication) :
    ((createSwapChain self).2 ≠ Outcome.ok ∧
      (createSwapChain self).1.m_swapChainImages = self.m_swapChainImages ∧
      (createSwapChain self).1.m_swapChainImageFormat = self.m_swapChainImageFormat ∧
      (createSwapChain self).1.m_swapChainExtent = self.m_swapChainExtent) ∨
    (∃ (pd : VkPhysicalDevice) (surfaceFormat : VkSurfaceFormatKHR),
      self.m_physicalDevice = some pd ∧
      chooseSwapSurfaceFormat (querySwapChainSupport pd).formats = some surfaceFormat ∧
      (createSwapChain self).2 = Outcome.ok ∧
      (createSwapChain self).1.m_swapChainImageFormat = surfaceFormat.format ∧
      (createSwapChain self).1.m_swapChainExtent =
        chooseSwapExtent self.m_window pd.surfaceCapabilities) := by
  cases hpd : self.m_physicalDevice with
  | none =>
    left
    simp [createSwapChain, hpd]
  | some pd =>
    cases hfmt : chooseSwapSurfaceFormat (querySwapChainSupport pd).formats with
    | none =>
      left
      simp [createSwapChain, hpd, hfmt]
    | some surfaceFormat =>
      cases hg : (findQueueFamilies pd).graphicsFamily with
      | none =>
        left
        simp [createSwapChain, hpd, hfmt, hg]
      | some g =>
        cases hp : (findQueueFamilies pd).presentFamily with
        | none =>
          left
          simp [createSwapChain, hpd, hfmt, hg, hp]
        | some p =>
          have hcaps : (querySwapChainSupport pd).capabilities = pd.surfaceCapabilities := rfl
          unfold createSwapChain
          simp only [hpd, hfmt, hg, hp, hcaps]
          split
          · left
            simp
          · right
            exact ⟨pd, surfaceFormat, rfl, hfmt, rfl, rfl, rfl⟩

theorem std_clamp_bounds (v lo hi : Nat) (h : lo ≤ hi) :
    lo ≤ std_clamp v lo hi ∧ std_clamp v lo hi ≤ hi := by
  rw [std_clamp_eq v lo hi h]
  omega

/-- C6 (amended): for capabilities with `minImageExtent <= maxImageExtent` on
both axes whose `currentExtent.width` is `2^32 - 1` or whose `currentExtent`
itself lies within `[minImageExtent, maxImageExtent]`, the extent returned by
`chooseSwapExtent` lies within those bounds on both axes for every window
size, and it is the extent that a successful `createSwapChain` stores in
`m_swapChainExtent`. -/
theorem chooseSwapExtent_bounds (m_window : GLFWwindow)
    (capabilities : VkSurfaceCapabilitiesKHR)
    (hw : capabilities.minImageExtent.width ≤ capabilities.maxImageExtent.width)
    (hh : capabilities.minImageExtent.height ≤ capabilities.maxImageExtent.height)
    (hcur : capabilities.currentExtent.width = 4294967295 ∨
      (capabilities.minImageExtent.width ≤ capabilities.currentExtent.width ∧
       capabilities.currentExtent.width ≤ capabilities.maxImageExtent.width ∧
       capabilities.minImageExtent.height ≤ capabilities.currentExtent.height ∧
       capabilities.currentExtent.height ≤ capabilities.maxImageExtent.height)) :
    (capabilities.minImageExtent.width ≤ (chooseSwapExtent m_window capabilities).width ∧
      (chooseSwapExtent m_window capabilities).width ≤ capabilities.maxImageExtent.width ∧
      capabilities.minImageExtent.height ≤ (chooseSwapExtent m_window capabilities).height ∧
      (chooseSwapExtent m_window capabilities).height ≤ capabilities.maxImageExtent.height) ∧
    ∀ (self : HelloTriangleApplication) (pd : VkPhysicalDevice),
      self.m_physicalDevice = some pd → pd.surfaceCapabilities = capabilities →
      self.m_window = m_window → (createSwapChain self).2 = Outcome.ok →
      (createSwapChain self).1.m_swapChainExtent = chooseSwapExtent m_window capabilities := by
  constructor
  · by_cases hs : capabilities.currentExtent.width ≠ UINT_MAX
    · have hin := hcur.resolve_left (by simpa [UINT_MAX] using hs)
      simp only [chooseSwapExtent, if_pos hs]
      exact hin
    · simp only [chooseSwapExtent, if_neg hs]
      exact ⟨(std_clamp_bounds _ _ _ hw).1, (std_clamp_bounds _ _ _ hw).2,
        (std_clamp_bounds _ _ _ hh).1, (std_clamp_bounds _ _ _ hh).2⟩
  · intro self pd hpd hcaps hwin hok
    rcases createSwapChain.ends self with hfail | ⟨pd2, _, hpd2, _, _, _, hext⟩
    · exact absurd hok hfail.1
    · have hsame : pd2 = pd := Option.some.inj (hpd2.symm.trans hpd)
      rw [hext, hsame, hcaps, hwin]

/-- Witness of C6: on a follow-the-window surface with bounds 1..4096 a
framebuffer of 5000 x 0 is clamped to 4096 x 1, and that is what a successful
`createSwapChain` stores. -/
theorem chooseSwapExtent_bounds_witness :
    (1 ≤ (chooseSwapExtent ⟨5000, 0⟩ followWindowCapabilities).width ∧
      (chooseSwapExtent ⟨5000, 0⟩ followWindowCapabilities).width ≤ 4096 ∧
      1 ≤ (chooseSwapExtent ⟨5000, 0⟩ followWindowCapabilities).height ∧
      (chooseSwapExtent ⟨5000, 0⟩ followWindowCapabilities).height ≤ 4096) ∧
    chooseSwapExtent ⟨5000, 0⟩ followWindowCapabilities = ⟨4096, 1⟩ ∧
    (createSwapChain
      { freshApplication acceptingDevice
          (physicalDeviceWith followWindowCapabilities sharedQueueFamilies) with
        m_window := ⟨5000, 0⟩ }).1.m_swapChainExtent = ⟨4096, 1⟩ :=
  have h := chooseSwapExtent_bounds ⟨5000, 0⟩ followWindowCapabilities (by decide) (by decide)
    (Or.inl (by decide))
  ⟨h.1, by decide,
    (h.2 _ (physicalDeviceWith followWindowCapabilities sharedQueueFamilies) rfl rfl rfl
      (by decide)).trans (by decide)⟩

/-- Counterexample to C6 as stated: capabilities with
`minImageExtent = (1, 1) <= maxImageExtent = (1024, 768)` and a fixed
`currentExtent = (1920, 1080)`; `chooseSwapExtent` returns, and a successful
`createSwapChain` stores, 1920 x 1080, which exceeds the maximum on both
axes. -/
theorem chooseSwapExtent_exceeds_max :
    oversizedCapabilities.minImageExtent.width ≤ oversizedCapabilities.maxImageExtent.width ∧
    oversizedCapabilities.minImageExtent.height ≤ oversizedCapabilities.maxImageExtent.height ∧
    chooseSwapExtent ⟨800, 600⟩ oversizedCapabilities = ⟨1920, 1080⟩ ∧
    ¬ ((chooseSwapExtent ⟨800, 600⟩ oversizedCapabilities).width ≤
        oversizedCapabilities.maxImageExtent.width) ∧
    ¬ ((chooseSwapExtent ⟨800, 600⟩ oversizedCapabilities).height ≤
        oversizedCapabilities.maxImageExtent.height) ∧
    (createSwapChain
      (freshApplication acceptingDevice
        (physicalDeviceWith oversizedCapabilities sharedQueueFamilies))).2 = Outcome.ok ∧
    (createSwapChain
      (freshApplication acceptingDevice
        (physicalDeviceWith oversizedCapabilities sharedQueueFamilies))).1.m_swapChainExtent
      = ⟨1920, 1080⟩ := by
  refine ⟨by decide, by decide, by decide, by decide, by decide, by decide, by decide⟩

end HelloTriangleApplication

/-! ## Image sharing mode -/

namespace HelloTriangleApplication

/-- C7: for graphics and present family indices `g` and `p` found by
`findQueueFamilies`, the sharing-mode branch of `createSwapChain`, and every
creation request `createSwapChain` makes, asks for
`VK_SHARING_MODE_CONCURRENT` with `queueFamilyIndexCount = 2` and the index
list `[g, p]` exactly when `g` differs from `p`, and for
`VK_SHARING_MODE_EXCLUSIVE` when they are equal. -/
theorem createSwapChain_sharing_spec (pd : VkPhysicalDevice) (g p : Nat)
    (hidx : findQueueFamilies pd = ⟨some g, some p⟩) :
    (∀ createInfo : VkSwapchainCreateInfoKHR,
      ((createSwapChain.sharing createInfo (findQueueFamilies pd) [g, p]).imageSharingMode
            = VK_SHARING_MODE_CONCURRENT ∧
          (createSwapChain.sharing createInfo (findQueueFamilies pd) [g, p]).queueFamilyIndexCount
            = 2 ∧
          (createSwapChain.sharing createInfo (findQueueFamilies pd) [g, p]).pQueueFamilyIndices
            = [g, p] ↔ g ≠ p) ∧
      (g = p →
        (createSwapChain.sharing createInfo (findQueueFamilies pd) [g, p]).imageSharingMode
          = VK_SHARING_MODE_EXCLUSIVE)) ∧
    ∀ self : HelloTriangleApplication, self.m_physicalDevice = some pd →
      ∀ info ∈ createSwapChain.requests self,
        (info.imageSharingMode = VK_SHARING_MODE_CONCURRENT ∧
            info.queueFamilyIndexCount = 2 ∧ info.pQueueFamilyIndices = [g, p] ↔ g ≠ p) ∧
        (g = p → info.imageSharingMode = VK_SHARING_MODE_EXCLUSIVE) := by
  constructor
  · intro createInfo
    rw [hidx]
    by_cases hgp : g = p
    · subst hgp
      simp [createSwapChain.sharing, VK_SHARING_MODE_EXCLUSIVE, VK_SHARING_MODE_CONCURRENT]
    · have hsome : ¬ (some g = some p) := fun h => hgp (Option.some.inj h)
      simp [createSwapChain.sharing, hsome, hgp]
  · intro self hpd info hinfo
    obtain ⟨pd2, surfaceFormat, g2, p2, hpd2, hfmt, hidx2⟩ :=
      createSwapChain.requests_inv self info hinfo
    rw [createSwapChain.requests_eq self pd2 surfaceFormat g2 p2 hpd2 hfmt hidx2,
      List.mem_singleton] at hinfo
    have hsame : pd2 = pd := Option.some.inj (hpd2.symm.trans hpd)
    subst hsame
    rw [hidx] at hidx2
    have hg : g = g2 := Option.some.inj (congrArg QueueFamilyIndices.graphicsFamily hidx2)
    have hp : p = p2 := Option.some.inj (congrArg QueueFamilyIndices.presentFamily hidx2)
    subst hg
    subst hp
    subst hinfo
    by_cases hgp : g = p
    · subst hgp
      simp [VK_SHARING_MODE_EXCLUSIVE, VK_SHARING_MODE_CONCURRENT]
    · simp [hgp]

/-- Witness of C7: with graphics on family 0 and presentation on family 1 the
one request of `createSwapChain` is concurrent over `[0, 1]`; with one family
for both it is exclusive. -/
theorem createSwapChain_sharing_spec_witness :
    (createSwapChain.requests
      (freshApplication acceptingDevice
        (physicalDeviceWith fixedCapabilities splitQueueFamilies))).map
      (fun info => (info.imageSharingMode, info.queueFamilyIndexCount, info.pQueueFamilyIndices))
      = [(VK_SHARING_MODE_CONCURRENT, 2, [0, 1])] ∧
    (createSwapChain.requests
      (freshApplication acceptingDevice
        (physicalDeviceWith fixedCapabilities sharedQueueFamilies))).map
      (fun info => info.imageSharingMode) = [VK_SHARING_MODE_EXCLUSIVE] ∧
    (∀ info ∈ createSwapChain.requests
        (freshApplication acceptingDevice
          (physicalDeviceWith fixedCapabilities splitQueueFamilies)),
      info.imageSharingMode = VK_SHARING_MODE_CONCURRENT ∧
        info.queueFamilyIndexCount = 2 ∧ info.pQueueFamilyIndices = [0, 1]) :=
  ⟨by decide, by decide, fun info hinfo =>
    (((createSwapChain_sharing_spec (physicalDeviceWith fixedCapabilities splitQueueFamilies)
      0 1 (by decide)).2 _ rfl info hinfo).1).mpr (by decide)⟩

end HelloTriangleApplication

/-! ## Failure of `createSwapChain` -/

namespace HelloTriangleApplication

theorem chooseSwapSurfaceFormat_some_of_ne_nil (l : List VkSurfaceFormatKHR) (h : l ≠ []) :
    ∃ f, chooseSwapSurfaceFormat l = some f := by
  cases l with
  | nil => exact absurd rfl h
  | cons a rest =>
    unfold chooseSwapSurfaceFormat
    split
    · exact ⟨_, rfl⟩
    · exact ⟨a, by simp⟩

theorem querySwapChainSupport_formats (pd : VkPhysicalDevice) :
    (querySwapChainSupport pd).formats = pd.surfaceFormats := by
  cases h : pd.surfaceFormats with
  | nil => simp [querySwapChainSupport, h]
  | cons a rest => simp [querySwapChainSupport, h]

theorem findQueueFamilies_of_isComplete (pd : VkPhysicalDevice)
    (h : (findQueueFamilies pd).isComplete = true) :
    ∃ g p, findQueueFamilies pd = ⟨some g, some p⟩ := by
  cases hq : findQueueFamilies pd with
  | mk gf pf =>
    rw [hq] at h
    cases gf with
    | none => simp [QueueFamilyIndices.isComplete] at h
    | some g =>
      cases pf with
      | none => simp [QueueFamilyIndices.isComplete] at h
      | some p => exact ⟨g, p, rfl⟩

/-- On a stored physical device whose surface format list is non-empty and
whose queue-family indices are complete, `createSwapChain` makes one creation
call on the device and ends other than normally if and only if that call's
result is not `VK_SUCCESS`; it then throws
`runtime_error("failed to create swap chain!")` and leaves
`m_swapChainImages`, `m_swapChainImageFormat` and `m_swapChainExtent` as they
were. -/
theorem createSwapChain.on_complete_device (self : HelloTriangleApplication) (pd : VkPhysicalDevice)
    (hpd : self.m_physicalDevice = some pd)
    (hformats : pd.surfaceFormats ≠ [])
    (hcomplete : (findQueueFamilies pd).isComplete = true) :
    ∃ (info : VkSwapchainCreateInfoKHR) (tail : List DeviceCall),
      createSwapChain.newCalls self =
        DeviceCall.createSwapchain info
          (self.m_device.vkCreateSwapchainKHR self.calls info).1
          (self.m_device.vkCreateSwapchainKHR self.calls info).2 :: tail ∧
      (∀ call ∈ tail, ∃ sc images, call = DeviceCall.getSwapchainImages sc images) ∧
      ((createSwapChain self).2 ≠ Outcome.ok ↔
        (self.m_device.vkCreateSwapchainKHR self.calls info).1 ≠ VK_SUCCESS) ∧
      ((createSwapChain self).2 ≠ Outcome.ok →
        (createSwapChain self).2 =
            Outcome.threw (Exception.runtime_error "failed to create swap chain!") ∧
          (createSwapChain self).1.m_swapChainImages = self.m_swapChainImages ∧
          (createSwapChain self).1.m_swapChainImageFormat = self.m_swapChainImageFormat ∧
          (createSwapChain self).1.m_swapChainExtent = self.m_swapChainExtent) := by
  obtain ⟨surfaceFormat, hfmt⟩ :=
    chooseSwapSurfaceFormat_some_of_ne_nil (querySwapChainSupport pd).formats
      (by rw [querySwapChainSupport_formats]; exact hformats)
  obtain ⟨g, p, hidx⟩ := findQueueFamilies_of_isComplete pd hcomplete
  have hg : (findQueueFamilies pd).graphicsFamily = some g := by rw [hidx]
  have hp : (findQueueFamilies pd).presentFamily = some p := by rw [hidx]
  unfold createSwapChain.newCalls createSwapChain
  simp only [hpd, hfmt, hg, hp]
  split
  · rename_i hres
    exact ⟨_, [], (List.drop_left _ _).trans rfl,
      fun call hc => absurd hc (List.not_mem_nil call),
      ⟨fun _ => hres, fun _ h => Outcome.noConfusion h⟩,
      fun _ => ⟨rfl, rfl, rfl, rfl⟩⟩
  · rename_i hres
    refine ⟨_, [_, _],
      ((congrArg (List.drop self.calls.length)
          ((List.append_assoc _ _ _).trans (List.append_assoc _ _ _))).trans
        (List.drop_left _ _)).trans rfl,
      fun call hc => ?_,
      ⟨fun h => absurd rfl h, fun h => absurd h hres⟩,
      fun h => absurd rfl h⟩
    rcases List.mem_cons.mp hc with h | h
    · exact ⟨_, _, h⟩
    · exact ⟨_, _, List.mem_singleton.mp h⟩

/-- A stored device that `isDeviceSuitable` rejects, which
`pickPhysicalDevice` therefore never stores: with a graphics queue family and
no family that can present, `createSwapChain` throws `bad_optional_access`
from `presentFamily.value()` without making any device call. -/
theorem createSwapChain.on_rejected_device :
    isDeviceSuitable (physicalDeviceWith fixedCapabilities graphicsOnlyQueueFamilies) = false ∧
    (createSwapChain
      (freshApplication acceptingDevice
        (physicalDeviceWith fixedCapabilities graphicsOnlyQueueFamilies))).2 =
      Outcome.threw Exception.bad_optional_access ∧
    createSwapChain.newCalls
      (freshApplication acceptingDevice
        (physicalDeviceWith fixedCapabilities graphicsOnlyQueueFamilies)) = [] :=
  ⟨by decide, by decide, by decide⟩

end HelloTriangleApplication

/-! ## Image views -/

namespace HelloTriangleApplication

theorem vector_resize_length (v : List Nat) (n : Nat) : (vector_resize v n).length = n := by
  unfold vector_resize
  simp only [List.length_append, List.length_take, List.length_replicate]
  omega

/-- What the loop of `createImageViews` leaves behind, started at index `i` on
the images `rest`: either it ends normally with one new handle per image, or it
throws at the first failing creation, with the handles created before it and
the handle of the failed call written to the view vector. -/
theorem createImageViews.loop_spec (rest : List VkImage) :
    ∀ (i : Nat) (s : HelloTriangleApplication),
      i + rest.length = s.m_swapChainImageViews.length →
      (createImageViews.loop rest i s).1.m_swapChainImages = s.m_swapChainImages ∧
      (createImageViews.loop rest i s).1.m_swapChainImageFormat = s.m_swapChainImageFormat ∧
      (((createImageViews.loop rest i s).2 = Outcome.ok ∧
          ∃ hs : List VkImageView, hs.length = rest.length ∧
            (createImageViews.loop rest i s).1.m_swapChainImageViews =
              s.m_swapChainImageViews.take i ++ hs ∧
            (createImageViews.loop rest i s).1.calls =
              s.calls ++ List.zipWith (fun image view =>
                DeviceCall.createImageView
                  (createImageViews.createInfo image s.m_swapChainImageFormat)
                  VK_SUCCESS view) rest hs) ∨
        ((createImageViews.loop rest i s).2 =
            Outcome.threw (Exception.runtime_error "failed to create image views!") ∧
          ∃ (hs : List VkImageView) (image : VkImage) (result : VkResult)
              (hfail : VkImageView),
            rest[hs.length]? = some image ∧ result ≠ VK_SUCCESS ∧
            (createImageViews.loop rest i s).1.m_swapChainImageViews =
              s.m_swapChainImageViews.take i ++ hs ++
                hfail :: s.m_swapChainImageViews.drop (i + hs.length + 1) ∧
            (createImageViews.loop rest i s).1.calls =
              s.calls ++ List.zipWith (fun image view =>
                DeviceCall.createImageView
                  (createImageViews.createInfo image s.m_swapChainImageFormat)
                  VK_SUCCESS view) rest hs ++
                [DeviceCall.createImageView
                  (createImageViews.createInfo image s.m_swapChainImageFormat)
                  result hfail])) := by
  induction rest with
  | nil =>
    intro i s hlen
    refine ⟨rfl, rfl, Or.inl ⟨rfl, [], rfl, ?_, ?_⟩⟩
    · have hi : s.m_swapChainImageViews.length ≤ i := by simp at hlen; omega
      simp only [createImageViews.loop, List.append_nil]
      exact (List.take_of_length_le hi).symm
    · simp [createImageViews.loop]
  | cons image rest ih =>
    intro i s hlen
    have hi : i < s.m_swapChainImageViews.length := by
      simp only [List.length_cons] at hlen
      omega
    simp only [createImageViews.loop]
    generalize s.m_device.vkCreateImageView s.calls
      (createImageViews.createInfo image s.m_swapChainImageFormat) = created
    obtain ⟨r, v⟩ := created
    simp only
    generalize hs1 : ({ s with
        m_swapChainImageViews := s.m_swapChainImageViews.set i v
        calls := s.calls ++
          [DeviceCall.createImageView
            (createImageViews.createInfo image s.m_swapChainImageFormat) r v] } :
        HelloTriangleApplication) = s1
    have hviews1 : s1.m_swapChainImageViews = s.m_swapChainImageViews.set i v := by
      rw [← hs1]
    have hcalls1 : s1.calls = s.calls ++
        [DeviceCall.createImageView
          (createImageViews.createInfo image s.m_swapChainImageFormat) r v] := by
      rw [← hs1]
    have himg1 : s1.m_swapChainImages = s.m_swapChainImages := by rw [← hs1]
    have hfmt1 : s1.m_swapChainImageFormat = s.m_swapChainImageFormat := by rw [← hs1]
    by_cases hres : r = VK_SUCCESS
    · -- the creation succeeds and the loop goes on
      simp only [hres, ne_eq, not_true_eq_false, if_false]
      have hlen1 : (i + 1) + rest.length = s1.m_swapChainImageViews.length := by
        rw [hviews1, List.length_set]
        simp only [List.length_cons] at hlen
        omega
      obtain ⟨himg, hfmt, hcase⟩ := ih (i + 1) s1 hlen1
      rw [himg1] at himg
      rw [hfmt1] at hfmt
      refine ⟨himg, hfmt, ?_⟩
      have htake : (s.m_swapChainImageViews.set i v).take (i + 1) =
          s.m_swapChainImageViews.take i ++ [v] := by
        rw [List.set_eq_take_cons_drop _ hi, List.take_append_eq_append_take]
        simp [List.length_take, Nat.min_eq_left (Nat.le_of_lt hi)]
      rw [hviews1, hcalls1, hfmt1, htake, hres] at hcase
      rcases hcase with ⟨hok, hs, hhs, hviews, hcalls⟩ |
        ⟨hthrew, hs, img, result, hfail, himgk, hne, hviews, hcalls⟩
      · left
        refine ⟨hok, v :: hs, ?_, ?_, ?_⟩
        · simp [hhs]
        · rw [hviews]
          simp only [List.append_assoc, List.singleton_append]
        · rw [hcalls]
          simp only [List.append_assoc, List.singleton_append, List.zipWith_cons_cons]
      · right
        refine ⟨hthrew, v :: hs, img, result, hfail, ?_, hne, ?_, ?_⟩
        · simpa using himgk
        · rw [hviews, List.drop_set_of_lt _ _ (by omega)]
          simp only [List.append_assoc, List.singleton_append, List.length_cons,
            List.cons_append]
          have hidx : i + 1 + hs.length + 1 = i + (hs.length + 1) + 1 := by omega
          rw [hidx]
          simp only [List.nil_append]
        · rw [hcalls]
          simp only [List.append_assoc, List.singleton_append, List.zipWith_cons_cons,
            List.cons_append, List.nil_append]
    · -- the creation fails and the function throws
      simp only [ne_eq, hres, not_false_eq_true, if_true]
      refine ⟨himg1, hfmt1, Or.inr ⟨trivial, [], image, r, v, by simp, hres, ?_, ?_⟩⟩
      · rw [hviews1]
        simp only [List.append_nil, List.length_nil, Nat.add_zero]
        exact List.set_eq_take_cons_drop _ hi
      · rw [hcalls1]
        simp

/-- The function `createImageViews` seen through `createImageViews.loop_spec`:
it runs the loop from index 0 on the resized view vector. -/
theorem createImageViews.run_spec (self : HelloTriangleApplication) :
    (createImageViews self).1.m_swapChainImages = self.m_swapChainImages ∧
    (createImageViews self).1.m_swapChainImageFormat = self.m_swapChainImageFormat ∧
    (((createImageViews self).2 = Outcome.ok ∧
        (createImageViews self).1.m_swapChainImageViews.length =
          self.m_swapChainImages.length ∧
        (createImageViews self).1.calls =
          self.calls ++ List.zipWith (fun image view =>
            DeviceCall.createImageView
              (createImageViews.createInfo image self.m_swapChainImageFormat)
              VK_SUCCESS view) self.m_swapChainImages
            (createImageViews self).1.m_swapChainImageViews) ∨
      ((createImageViews self).2 =
          Outcome.threw (Exception.runtime_error "failed to create image views!") ∧
        ∃ (k : Nat) (image : VkImage) (result : VkResult) (hfail : VkImageView),
          self.m_swapChainImages[k]? = some image ∧ result ≠ VK_SUCCESS ∧
          (createImageViews self).1.m_swapChainImageViews.length =
            self.m_swapChainImages.length ∧
          ((createImageViews self).1.m_swapChainImageViews.take k).length = k ∧
          (createImageViews self).1.calls =
            self.calls ++ List.zipWith (fun image view =>
              DeviceCall.createImageView
                (createImageViews.createInfo image self.m_swapChainImageFormat)
                VK_SUCCESS view) self.m_swapChainImages
              ((createImageViews self).1.m_swapChainImageViews.take k) ++
              [DeviceCall.createImageView
                (createImageViews.createInfo image self.m_swapChainImageFormat)
                result hfail])) := by
  have hspec := createImageViews.loop_spec self.m_swapChainImages 0
    { self with
      m_swapChainImageViews :=
        vector_resize self.m_swapChainImageViews self.m_swapChainImages.length }
    (by simp [vector_resize_length])
  have hrun : createImageViews self =
      createImageViews.loop self.m_swapChainImages 0
        { self with
          m_swapChainImageViews :=
            vector_resize self.m_swapChainImageViews self.m_swapChainImages.length } := rfl
  rw [← hrun] at hspec
  obtain ⟨himg, hfmt, hcase⟩ := hspec
  refine ⟨himg, hfmt, ?_⟩
  simp only [List.take_zero, List.nil_append, Nat.zero_add] at hcase
  rcases hcase with ⟨hok, hs, hhs, hviews, hcalls⟩ |
    ⟨hthrew, hs, image, result, hfail, himgk, hne, hviews, hcalls⟩
  · left
    rw [← hviews] at hcalls hhs
    exact ⟨hok, hhs, hcalls⟩
  · right
    have hk : hs.length < self.m_swapChainImages.length := by
      rcases List.getElem?_eq_some_iff.mp himgk with ⟨h, _⟩
      exact h
    have htake : (createImageViews self).1.m_swapChainImageViews.take hs.length = hs := by
      rw [hviews]
      exact List.take_left _ _
    refine ⟨hthrew, hs.length, image, result, hfail, himgk, hne, ?_, ?_, ?_⟩
    · rw [hviews]
      simp only [List.length_append, List.length_cons, List.length_drop, vector_resize_length]
      omega
    · rw [htake]
    · rw [htake]
      exact hcalls

/-- C8: when `createImageViews` succeeds, the stored view list has as many
entries as the image list, the run made exactly one creation call per image,
and the `i`-th call asked, for the `i`-th image, for a 2D view in the chain's
image format with identity mapping on the four channels, colour aspect, base
mip level 0 with 1 level and base array layer 0 with 1 layer, and answered the
handle stored as the `i`-th view. -/
theorem createImageViews_spec (self : HelloTriangleApplication)
    (hok : (createImageViews self).2 = Outcome.ok) :
    (createImageViews self).1.m_swapChainImageViews.length = self.m_swapChainImages.length ∧
    (createImageViews self).1.m_swapChainImages = self.m_swapChainImages ∧
    (createImageViews.newCalls self).length = self.m_swapChainImages.length ∧
    ∀ (i : Nat) (hi : i < self.m_swapChainImages.length),
      ∃ view : VkImageView,
        (createImageViews self).1.m_swapChainImageViews[i]? = some view ∧
        (createImageViews.newCalls self)[i]? =
          some (DeviceCall.createImageView
            { image := self.m_swapChainImages[i]
              viewType := VK_IMAGE_VIEW_TYPE_2D
              format := self.m_swapChainImageFormat
              components :=
                ⟨VK_COMPONENT_SWIZZLE_IDENTITY, VK_COMPONENT_SWIZZLE_IDENTITY,
                  VK_COMPONENT_SWIZZLE_IDENTITY, VK_COMPONENT_SWIZZLE_IDENTITY⟩
              subresourceRange := ⟨VK_IMAGE_ASPECT_COLOR_BIT, 0, 1, 0, 1⟩ }
            VK_SUCCESS view) := by
  obtain ⟨himg, _, hcase⟩ := createImageViews.run_spec self
  rcases hcase with ⟨_, hlen, hcalls⟩ | ⟨hthrew, _⟩
  · have hnew : createImageViews.newCalls self =
        List.zipWith (fun image view =>
          DeviceCall.createImageView
            (createImageViews.createInfo image self.m_swapChainImageFormat)
            VK_SUCCESS view) self.m_swapChainImages
          (createImageViews self).1.m_swapChainImageViews := by
      unfold createImageViews.newCalls
      rw [hcalls, List.drop_left]
    refine ⟨hlen, himg, ?_, ?_⟩
    · rw [hnew, List.length_zipWith, hlen, Nat.min_self]
    · intro i hi
      have hi2 : i < (createImageViews self).1.m_swapChainImageViews.length := by
        rw [hlen]
        exact hi
      refine ⟨(createImageViews self).1.m_swapChainImageViews[i], ?_, ?_⟩
      · exact List.getElem?_eq_getElem hi2
      · rw [hnew, List.getElem?_zipWith_eq_some]
        exact ⟨_, _, List.getElem?_eq_getElem hi, List.getElem?_eq_getElem hi2, rfl⟩
  · rw [hok] at hthrew
    exact Outcome.noConfusion hthrew

/-- Witness of C8: on a device that accepts every request and a chain of three
images, `createImageViews` succeeds, stores three views and its second call
asks for the view of the second image. -/
theorem createImageViews_spec_witness :
    (createImageViews (applicationWithImages acceptingDevice [101, 102, 103])).2
      = Outcome.ok ∧
    (createImageViews
      (applicationWithImages acceptingDevice [101, 102, 103])).1.m_swapChainImageViews
      = [1, 2, 3] ∧
    (createImageViews
      (applicationWithImages acceptingDevice [101, 102, 103])).1.m_swapChainImageViews.length
      = 3 ∧
    (createImageViews.newCalls (applicationWithImages acceptingDevice [101, 102, 103]))[1]? =
      some (DeviceCall.createImageView
        ⟨102, VK_IMAGE_VIEW_TYPE_2D, VK_FORMAT_B8G8R8A8_UNORM, ⟨0, 0, 0, 0⟩, ⟨1, 0, 1, 0, 1⟩⟩
        VK_SUCCESS 2) :=
  ⟨by decide, by decide,
    (createImageViews_spec (applicationWithImages acceptingDevice [101, 102, 103])
      (by decide)).1,
    by decide⟩

/-! ## Views left behind by a failed `createImageViews` -/

theorem liveImageViews.foldl_created (fmt : VkFormat) (hs : List VkImageView) :
    ∀ (images : List VkImage) (live : List VkImageView), hs.length ≤ images.length →
      (List.zipWith (fun image view =>
          DeviceCall.createImageView (createImageViews.createInfo image fmt) VK_SUCCESS view)
        images hs).foldl liveImageViews.step live = live ++ hs := by
  induction hs with
  | nil =>
    intro images live _
    simp
  | cons v hs ih =>
    intro images live hlen
    cases images with
    | nil => simp at hlen
    | cons image images =>
      simp only [List.length_cons, Nat.add_le_add_iff_right] at hlen
      simp only [List.zipWith_cons_cons, List.foldl_cons, liveImageViews.step, if_true]
      rw [ih images (live ++ [v]) hlen]
      simp

/-- C10 (amended): when `createImageViews` does not end normally it throws
`runtime_error("failed to create image views!")` at the first index `k` whose
creation call fails; the `k` views created for images `0 .. k-1` stay stored
as the first `k` entries of `m_swapChainImageViews` and stay live (no destroy
call is made), and no view is created for image `k` or any later image. So
nothing is left constructed exactly when `k = 0`. -/
theorem createImageViews_failure_leaves_views (self : HelloTriangleApplication)
    (hraise : (createImageViews self).2 ≠ Outcome.ok) :
    (createImageViews self).2 =
      Outcome.threw (Exception.runtime_error "failed to create image views!") ∧
    ∃ (k : Nat) (image : VkImage) (result : VkResult) (hfail : VkImageView),
      self.m_swapChainImages[k]? = some image ∧ k < self.m_swapChainImages.length ∧
      result ≠ VK_SUCCESS ∧
      ((createImageViews self).1.m_swapChainImageViews.take k).length = k ∧
      createImageViews.newCalls self =
        List.zipWith (fun image view =>
          DeviceCall.createImageView
            { image := image
              viewType := VK_IMAGE_VIEW_TYPE_2D
              format := self.m_swapChainImageFormat
              components :=
                ⟨VK_COMPONENT_SWIZZLE_IDENTITY, VK_COMPONENT_SWIZZLE_IDENTITY,
                  VK_COMPONENT_SWIZZLE_IDENTITY, VK_COMPONENT_SWIZZLE_IDENTITY⟩
              subresourceRange := ⟨VK_IMAGE_ASPECT_COLOR_BIT, 0, 1, 0, 1⟩ }
            VK_SUCCESS view) self.m_swapChainImages
          ((createImageViews self).1.m_swapChainImageViews.take k) ++
          [DeviceCall.createImageView
            { image := image
              viewType := VK_IMAGE_VIEW_TYPE_2D
              format := self.m_swapChainImageFormat
              components :=
                ⟨VK_COMPONENT_SWIZZLE_IDENTITY, VK_COMPONENT_SWIZZLE_IDENTITY,
                  VK_COMPONENT_SWIZZLE_IDENTITY, VK_COMPONENT_SWIZZLE_IDENTITY⟩
              subresourceRange := ⟨VK_IMAGE_ASPECT_COLOR_BIT, 0, 1, 0, 1⟩ }
            result hfail] ∧
      liveImageViews (createImageViews self).1.calls =
        liveImageViews self.calls ++ (createImageViews self).1.m_swapChainImageViews.take k ∧
      (liveImageViews (createImageViews.newCalls self)).length = k := by
  obtain ⟨_, _, hcase⟩ := createImageViews.run_spec self
  rcases hcase with ⟨hok, _⟩ | ⟨hthrew, k, image, result, hfail, himgk, hne, _, htakelen, hcalls⟩
  · exact absurd hok hraise
  · have hk : k < self.m_swapChainImages.length :=
      (List.getElem?_eq_some_iff.mp himgk).1
    have hle : ((createImageViews self).1.m_swapChainImageViews.take k).length ≤
        self.m_swapChainImages.length := by
      rw [htakelen]
      exact Nat.le_of_lt hk
    have hnew : createImageViews.newCalls self =
        List.zipWith (fun image view =>
          DeviceCall.createImageView
            (createImageViews.createInfo image self.m_swapChainImageFormat)
            VK_SUCCESS view) self.m_swapChainImages
          ((createImageViews self).1.m_swapChainImageViews.take k) ++
          [DeviceCall.createImageView
            (createImageViews.createInfo image self.m_swapChainImageFormat)
            result hfail] := by
      unfold createImageViews.newCalls
      rw [hcalls, List.append_assoc, List.drop_left]
    refine ⟨hthrew, k, image, result, hfail, himgk, hk, hne, htakelen, hnew, ?_, ?_⟩
    · rw [hcalls]
      unfold liveImageViews
      rw [List.foldl_append, List.foldl_append,
        liveImageViews.foldl_created _ _ _ _ hle]
      simp [liveImageViews.step, hne]
    · rw [hnew]
      unfold liveImageViews
      rw [List.foldl_append, liveImageViews.foldl_created _ _ _ _ hle]
      simp [liveImageViews.step, hne, htakelen]

/-- Witness of C10: on a chain of two images whose second view creation fails,
`createImageViews` throws and one view (the first) is left live. -/
theorem createImageViews_failure_leaves_views_witness :
    (createImageViews (applicationWithImages secondViewFailsDevice [101, 102])).2 =
      Outcome.threw (Exception.runtime_error "failed to create image views!") ∧
    liveImageViews
      (createImageViews (applicationWithImages secondViewFailsDevice [101, 102])).1.calls
      = [7] :=
  ⟨(createImageViews_failure_leaves_views
      (applicationWithImages secondViewFailsDevice [101, 102]) (by decide)).1,
    by decide⟩

/-- Counterexample to C10 as stated: with two chain images and a device whose
second view creation fails, `createImageViews` throws and leaves one view
live: neither none nor one per image, and no destroy call is made. -/
theorem createImageViews_leaves_partial_views :
    (createImageViews (applicationWithImages secondViewFailsDevice [101, 102])).2 =
      Outcome.threw (Exception.runtime_error "failed to create image views!") ∧
    (applicationWithImages secondViewFailsDevice [101, 102]).m_swapChainImages.length = 2 ∧
    liveImageViews (applicationWithImages secondViewFailsDevice [101, 102]).calls = [] ∧
    liveImageViews
      (createImageViews (applicationWithImages secondViewFailsDevice [101, 102])).1.calls
      = [7] ∧
    (createImageViews
      (applicationWithImages secondViewFailsDevice [101, 102])).1.m_swapChainImageViews
      = [7, 0] ∧
    createImageViews.newCalls (applicationWithImages secondViewFailsDevice [101, 102]) =
      [DeviceCall.createImageView
          ⟨101, VK_IMAGE_VIEW_TYPE_2D, VK_FORMAT_B8G8R8A8_UNORM, ⟨0, 0, 0, 0⟩, ⟨1, 0, 1, 0, 1⟩⟩
          VK_SUCCESS 7,
       DeviceCall.createImageView
          ⟨102, VK_IMAGE_VIEW_TYPE_2D, VK_FORMAT_B8G8R8A8_UNORM, ⟨0, 0, 0, 0⟩, ⟨1, 0, 1, 0, 1⟩⟩
          (-2) 0] := by
  refine ⟨by decide, by decide, by decide, by decide, by decide, by decide⟩

end HelloTriangleApplication

/-! ## Queue families -/

namespace HelloTriangleApplication

/-- One iteration of the loop of `findQueueFamilies`: the indices after the two
assignments, and the `break` test on them. -/
theorem findQueueFamilies.loop_cons (f : VkQueueFamilyProperties)
    (rest : List VkQueueFamilyProperties) (i : Nat) (indices : QueueFamilyIndices) :
    ∃ next : QueueFamilyIndices,
      next.graphicsFamily =
        (if f.queueFlags &&& VK_QUEUE_GRAPHICS_BIT ≠ 0 then some i
          else indices.graphicsFamily) ∧
      next.presentFamily =
        (if f.presentSupport = true then some i else indices.presentFamily) ∧
      findQueueFamilies.loop (f :: rest) i indices =
        (if next.isComplete = true then next
          else findQueueFamilies.loop rest (i + 1) next) := by
  refine ⟨_, ?_, ?_, rfl⟩
  · by_cases hgf : f.queueFlags &&& VK_QUEUE_GRAPHICS_BIT ≠ 0 <;>
      by_cases hps : f.presentSupport = true <;> simp [hgf, hps]
  · by_cases hgf : f.queueFlags &&& VK_QUEUE_GRAPHICS_BIT ≠ 0 <;>
      by_cases hps : f.presentSupport = true <;> simp [hgf, hps]

/-- The loop of `findQueueFamilies` ends with both indices set exactly when
each was set before or a family of the rest of the list sets it. -/
theorem findQueueFamilies.loop_isComplete (rest : List VkQueueFamilyProperties) :
    ∀ (i : Nat) (indices : QueueFamilyIndices),
      (findQueueFamilies.loop rest i indices).isComplete = true ↔
        (indices.graphicsFamily.isSome = true ∨
            ∃ f ∈ rest, f.queueFlags &&& VK_QUEUE_GRAPHICS_BIT ≠ 0) ∧
          (indices.presentFamily.isSome = true ∨ ∃ f ∈ rest, f.presentSupport = true) := by
  induction rest with
  | nil =>
    intro i indices
    simp [findQueueFamilies.loop, QueueFamilyIndices.isComplete]
  | cons f rest ih =>
    intro i indices
    obtain ⟨next, hg, hp, hloop⟩ := findQueueFamilies.loop_cons f rest i indices
    have hgsome : next.graphicsFamily.isSome = true ↔
        (indices.graphicsFamily.isSome = true ∨ f.queueFlags &&& VK_QUEUE_GRAPHICS_BIT ≠ 0) := by
      rw [hg]
      by_cases hgf : f.queueFlags &&& VK_QUEUE_GRAPHICS_BIT ≠ 0 <;> simp [hgf]
    have hpsome : next.presentFamily.isSome = true ↔
        (indices.presentFamily.isSome = true ∨ f.presentSupport = true) := by
      rw [hp]
      by_cases hps : f.presentSupport = true <;> simp [hps]
    have hexg : (∃ g ∈ f :: rest, g.queueFlags &&& VK_QUEUE_GRAPHICS_BIT ≠ 0) ↔
        (f.queueFlags &&& VK_QUEUE_GRAPHICS_BIT ≠ 0 ∨
          ∃ g ∈ rest, g.queueFlags &&& VK_QUEUE_GRAPHICS_BIT ≠ 0) := by
      simp
    have hexp : (∃ g ∈ f :: rest, g.presentSupport = true) ↔
        (f.presentSupport = true ∨ ∃ g ∈ rest, g.presentSupport = true) := by
      simp
    rw [hloop, hexg, hexp]
    by_cases hc : next.isComplete = true
    · rw [if_pos hc]
      have hboth := hc
      simp only [QueueFamilyIndices.isComplete, Bool.and_eq_true] at hboth
      have h1 := hgsome.mp hboth.1
      have h2 := hpsome.mp hboth.2
      simp only [hc, true_iff]
      exact ⟨h1.elim Or.inl fun h => Or.inr (Or.inl h),
        h2.elim Or.inl fun h => Or.inr (Or.inl h)⟩
    · rw [if_neg hc, ih, hgsome, hpsome, or_assoc, or_assoc]

/-- An index held by the result of the loop of `findQueueFamilies` was held
before or is the position, counted from `i`, of a family of the rest of the
list with the capability. -/
theorem findQueueFamilies.loop_index (rest : List VkQueueFamilyProperties) :
    ∀ (i : Nat) (indices : QueueFamilyIndices),
      (∀ k, (findQueueFamilies.loop rest i indices).graphicsFamily = some k →
        indices.graphicsFamily = some k ∨
          ∃ j f, k = i + j ∧ rest[j]? = some f ∧
            f.queueFlags &&& VK_QUEUE_GRAPHICS_BIT ≠ 0) ∧
      (∀ k, (findQueueFamilies.loop rest i indices).presentFamily = some k →
        indices.presentFamily = some k ∨
          ∃ j f, k = i + j ∧ rest[j]? = some f ∧ f.presentSupport = true) := by
  induction rest with
  | nil =>
    intro i indices
    simp [findQueueFamilies.loop]
  | cons f rest ih =>
    intro i indices
    obtain ⟨next, hg, hp, hloop⟩ := findQueueFamilies.loop_cons f rest i indices
    have hshift : ∀ (k : Nat) (P : VkQueueFamilyProperties → Prop),
        (∃ j g, k = i + 1 + j ∧ rest[j]? = some g ∧ P g) →
        ∃ j g, k = i + j ∧ (f :: rest)[j]? = some g ∧ P g := by
      intro k P ⟨j, g, hk, hj, hP⟩
      exact ⟨j + 1, g, by omega, by simpa using hj, hP⟩
    have hhead : ∀ (P : VkQueueFamilyProperties → Prop), P f →
        ∃ j g, i = i + j ∧ (f :: rest)[j]? = some g ∧ P g :=
      fun P hP => ⟨0, f, rfl, by simp, hP⟩
    have hgnext : ∀ k, next.graphicsFamily = some k →
        indices.graphicsFamily = some k ∨
          ∃ j g, k = i + j ∧ (f :: rest)[j]? = some g ∧
            g.queueFlags &&& VK_QUEUE_GRAPHICS_BIT ≠ 0 := by
      intro k hk
      rw [hg] at hk
      by_cases hgf : f.queueFlags &&& VK_QUEUE_GRAPHICS_BIT ≠ 0
      · rw [if_pos hgf] at hk
        have hik : i = k := Option.some.inj hk
        subst hik
        exact Or.inr (hhead _ hgf)
      · rw [if_neg hgf] at hk
        exact Or.inl hk
    have hpnext : ∀ k, next.presentFamily = some k →
        indices.presentFamily = some k ∨
          ∃ j g, k = i + j ∧ (f :: rest)[j]? = some g ∧ g.presentSupport = true := by
      intro k hk
      rw [hp] at hk
      by_cases hps : f.presentSupport = true
      · rw [if_pos hps] at hk
        have hik : i = k := Option.some.inj hk
        subst hik
        exact Or.inr (hhead _ hps)
      · rw [if_neg hps] at hk
        exact Or.inl hk
    rw [hloop]
    by_cases hc : next.isComplete = true
    · rw [if_pos hc]
      exact ⟨hgnext, hpnext⟩
    · rw [if_neg hc]
      constructor
      · intro k hk
        rcases (ih (i + 1) next).1 k hk with h | h
        · exact hgnext k h
        · exact Or.inr (hshift k _ h)
      · intro k hk
        rcases (ih (i + 1) next).2 k hk with h | h
        · exact hpnext k h
        · exact Or.inr (hshift k _ h)

/-- C16: for every list of queue families, the indices returned by
`findQueueFamilies` are complete exactly when some family has
`VK_QUEUE_GRAPHICS_BIT` set and some family supports presentation to the
surface; and an index held in `graphicsFamily` (resp. `presentFamily`) is in
range and the family at it has the graphics bit (resp. supports
presentation). -/
theorem findQueueFamilies_spec (device : VkPhysicalDevice) :
    ((findQueueFamilies device).isComplete = true ↔
      (∃ f ∈ device.queueFamilies, f.queueFlags &&& VK_QUEUE_GRAPHICS_BIT ≠ 0) ∧
        (∃ f ∈ device.queueFamilies, f.presentSupport = true)) ∧
    (∀ k, (findQueueFamilies device).graphicsFamily = some k →
      k < device.queueFamilies.length ∧
        ∃ f, device.queueFamilies[k]? = some f ∧
          f.queueFlags &&& VK_QUEUE_GRAPHICS_BIT ≠ 0) ∧
    (∀ k, (findQueueFamilies device).presentFamily = some k →
      k < device.queueFamilies.length ∧
        ∃ f, device.queueFamilies[k]? = some f ∧ f.presentSupport = true) ∧
    findQueueFamilies (physicalDeviceWith fixedCapabilities splitQueueFamilies) =
      ⟨some 0, some 1⟩ ∧
    findQueueFamilies (physicalDeviceWith fixedCapabilities graphicsOnlyQueueFamilies) =
      ⟨some 0, none⟩ := by
  refine ⟨?_, ?_, ?_, by decide, by decide⟩
  · unfold findQueueFamilies
    rw [findQueueFamilies.loop_isComplete]
    simp
  · intro k hk
    rcases (findQueueFamilies.loop_index device.queueFamilies 0 ⟨none, none⟩).1 k hk with h | h
    · simp at h
    · obtain ⟨j, f, hkj, hj, hf⟩ := h
      have hkj2 : k = j := by omega
      subst hkj2
      exact ⟨(List.getElem?_eq_some_iff.mp hj).1, f, hj, hf⟩
  · intro k hk
    rcases (findQueueFamilies.loop_index device.queueFamilies 0 ⟨none, none⟩).2 k hk with h | h
    · simp at h
    · obtain ⟨j, f, hkj, hj, hf⟩ := h
      have hkj2 : k = j := by omega
      subst hkj2
      exact ⟨(List.getElem?_eq_some_iff.mp hj).1, f, hj, hf⟩


/-! ## Device extensions -/

theorem checkDeviceExtensionSupport.mem_loop (available : List VkExtensionProperties) :
    ∀ (required : List String) (x : String),
      x ∈ checkDeviceExtensionSupport.loop available required ↔
        x ∈ required ∧ x ∉ available.map (fun e => e.extensionName) := by
  induction available with
  | nil =>
    intro required x
    simp [checkDeviceExtensionSupport.loop]
  | cons e rest ih =>
    intro required x
    simp only [checkDeviceExtensionSupport.loop, ih, std_set_erase, List.mem_filter,
      List.map_cons, List.mem_cons, not_or, decide_eq_true_eq]
    constructor
    · rintro ⟨⟨h1, h2⟩, h3⟩
      exact ⟨h1, h2, h3⟩
    · rintro ⟨h1, h2, h3⟩
      exact ⟨⟨h1, h2⟩, h3⟩

theorem checkDeviceExtensionSupport_iff (device : VkPhysicalDevice) :
    checkDeviceExtensionSupport device = true ↔
      ∀ r ∈ deviceExtensions, r ∈ device.availableExtensions.map (fun e => e.extensionName) := by
  unfold checkDeviceExtensionSupport
  simp only [List.isEmpty_iff, List.eq_nil_iff_forall_not_mem,
    checkDeviceExtensionSupport.mem_loop, std_set_of, List.mem_dedup, not_and, not_not]

/-- C17: for every list of extensions a device reports,
`checkDeviceExtensionSupport` returns true exactly when every required device
extension name, that is `VK_KHR_swapchain`, occurs among the reported names;
so two devices that report the same set of names, in any order and with any
repetitions, get the same answer. -/
theorem checkDeviceExtensionSupport_spec (device : VkPhysicalDevice) :
    (checkDeviceExtensionSupport device = true ↔
      ∀ r ∈ deviceExtensions, r ∈ device.availableExtensions.map (fun e => e.extensionName)) ∧
    (checkDeviceExtensionSupport device = true ↔
      "VK_KHR_swapchain" ∈ device.availableExtensions.map (fun e => e.extensionName)) ∧
    (∀ other : VkPhysicalDevice,
      (∀ name, name ∈ other.availableExtensions.map (fun e => e.extensionName) ↔
        name ∈ device.availableExtensions.map (fun e => e.extensionName)) →
      checkDeviceExtensionSupport other = checkDeviceExtensionSupport device) ∧
    checkDeviceExtensionSupport
      { device with
        availableExtensions :=
          [⟨"VK_KHR_swapchain", 70⟩, ⟨"VK_EXT_debug_marker", 4⟩, ⟨"VK_KHR_swapchain", 70⟩] }
      = true ∧
    checkDeviceExtensionSupport
      { device with availableExtensions := [⟨"VK_EXT_debug_marker", 4⟩] } = false ∧
    checkDeviceExtensionSupport { device with availableExtensions := [] } = false := by
  refine ⟨checkDeviceExtensionSupport_iff device, ?_, ?_, by rfl, by rfl, by rfl⟩
  · rw [checkDeviceExtensionSupport_iff]
    simp [deviceExtensions, VK_KHR_SWAPCHAIN_EXTENSION_NAME]
  · intro other hsame
    have h1 := checkDeviceExtensionSupport_iff other
    have h2 := checkDeviceExtensionSupport_iff device
    have h3 : checkDeviceExtensionSupport other = true ↔
        checkDeviceExtensionSupport device = true := by
      rw [h1, h2]
      exact ⟨fun h r hr => (hsame r).mp (h r hr), fun h r hr => (hsame r).mpr (h r hr)⟩
    cases ho : checkDeviceExtensionSupport other <;>
      cases hd : checkDeviceExtensionSupport device <;> simp_all

/-! ## Suitability of a device -/

theorem querySwapChainSupport_presentModes (pd : VkPhysicalDevice) :
    (querySwapChainSupport pd).presentModes = pd.surfacePresentModes := by
  cases h : pd.surfacePresentModes with
  | nil => simp [querySwapChainSupport, h]
  | cons a rest => simp [querySwapChainSupport, h]

theorem isDeviceSuitable_iff (device : VkPhysicalDevice) :
    isDeviceSuitable device = true ↔
      (findQueueFamilies device).isComplete = true ∧
        checkDeviceExtensionSupport device = true ∧
        device.surfaceFormats ≠ [] ∧ device.surfacePresentModes ≠ [] := by
  unfold isDeviceSuitable
  simp only [querySwapChainSupport_formats, querySwapChainSupport_presentModes]
  cases hext : checkDeviceExtensionSupport device <;>
    cases hc : (findQueueFamilies device).isComplete <;>
    simp [List.isEmpty_iff]

/-- C18: `isDeviceSuitable` returns true exactly when the queue-family indices
are complete, every required device extension is supported and the reported
surface formats and present modes are both non-empty; a device whose required
extensions are not supported is rejected whatever swap-chain support it
reports. -/
theorem isDeviceSuitable_spec (device : VkPhysicalDevice) :
    (isDeviceSuitable device = true ↔
      (findQueueFamilies device).isComplete = true ∧
        checkDeviceExtensionSupport device = true ∧
        device.surfaceFormats ≠ [] ∧ device.surfacePresentModes ≠ []) ∧
    (checkDeviceExtensionSupport device = false →
      ∀ (capabilities : VkSurfaceCapabilitiesKHR) (formats : List VkSurfaceFormatKHR)
        (presentModes : List VkPresentModeKHR),
        isDeviceSuitable
          { device with
            surfaceCapabilities := capabilities
            surfaceFormats := formats
            surfacePresentModes := presentModes } = false) ∧
    isDeviceSuitable (physicalDeviceWith fixedCapabilities sharedQueueFamilies) = true ∧
    isDeviceSuitable (physicalDeviceWith fixedCapabilities graphicsOnlyQueueFamilies) = false ∧
    isDeviceSuitable
      { physicalDeviceWith fixedCapabilities sharedQueueFamilies with
        availableExtensions := [] } = false ∧
    isDeviceSuitable
      { physicalDeviceWith fixedCapabilities sharedQueueFamilies with
        surfacePresentModes := [] } = false := by
  refine ⟨isDeviceSuitable_iff device, ?_, by decide, by decide, by decide, by decide⟩
  intro hext capabilities formats presentModes
  have hsame : checkDeviceExtensionSupport
      { device with
        surfaceCapabilities := capabilities
        surfaceFormats := formats
        surfacePresentModes := presentModes } = checkDeviceExtensionSupport device := rfl
  cases h : isDeviceSuitable
      { device with
        surfaceCapabilities := capabilities
        surfaceFormats := formats
        surfacePresentModes := presentModes } with
  | false => rfl
  | true =>
    have hsup := ((isDeviceSuitable_iff _).mp h).2.1
    rw [hsame, hext] at hsup
    exact absurd hsup (by decide)


/-! ## Choice of the physical device -/

theorem pickPhysicalDevice.loop_eq (devices : List VkPhysicalDevice)
    (self : HelloTriangleApplication) :
    (pickPhysicalDevice.loop devices self).m_physicalDevice =
      (match devices.find? isDeviceSuitable with
        | some device => some device
        | none => self.m_physicalDevice) := by
  induction devices with
  | nil => rfl
  | cons d rest ih =>
    by_cases hd : isDeviceSuitable d = true
    · simp [pickPhysicalDevice.loop, hd, List.find?_cons]
    · have hd2 : isDeviceSuitable d = false := by simpa using hd
      simp only [pickPhysicalDevice.loop, hd2, List.find?_cons, Bool.false_eq_true, if_false]
      exact ih

/-- C19: started with no physical device stored (the member initialiser
`m_physicalDevice = VK_NULL_HANDLE`), `pickPhysicalDevice` throws exactly when
the enumerated list is empty or holds no device that `isDeviceSuitable`
accepts; otherwise it returns normally with the first suitable device of the
list, in enumeration order, stored in `m_physicalDevice`. -/
theorem pickPhysicalDevice_spec (self : HelloTriangleApplication)
    (hnull : self.m_physicalDevice = none) :
    ((pickPhysicalDevice self).2 ≠ Outcome.ok ↔
      self.m_instance.physicalDevices = [] ∨
        ∀ d ∈ self.m_instance.physicalDevices, isDeviceSuitable d = false) ∧
    ((pickPhysicalDevice self).2 ≠ Outcome.ok →
      ∃ what, (pickPhysicalDevice self).2 = Outcome.threw (Exception.runtime_error what)) ∧
    ((pickPhysicalDevice self).2 = Outcome.ok →
      ∃ pre d post, self.m_instance.physicalDevices = pre ++ d :: post ∧
        (∀ x ∈ pre, isDeviceSuitable x = false) ∧ isDeviceSuitable d = true ∧
        (pickPhysicalDevice self).1.m_physicalDevice = some d) ∧
    (pickPhysicalDevice self).1.m_physicalDevice =
      self.m_instance.physicalDevices.find? isDeviceSuitable := by
  have hloop := pickPhysicalDevice.loop_eq self.m_instance.physicalDevices self
  rw [hnull] at hloop
  have hfind : (pickPhysicalDevice.loop self.m_instance.physicalDevices self).m_physicalDevice =
      self.m_instance.physicalDevices.find? isDeviceSuitable := by
    rw [hloop]
    cases self.m_instance.physicalDevices.find? isDeviceSuitable <;> rfl
  cases hdev : self.m_instance.physicalDevices with
  | nil =>
    have hrun : pickPhysicalDevice self =
        (self, Outcome.threw
          (Exception.runtime_error "failed to find GPUs with Vulkan support!")) := by
      simp [pickPhysicalDevice, hdev]
    rw [hrun]
    refine ⟨by simp, fun _ => ⟨_, rfl⟩, fun h => absurd h (by simp), ?_⟩
    simp [hnull]
  | cons d0 rest =>
    rw [hdev] at hfind
    have hcount : ¬ (d0 :: rest).length = 0 := by simp
    cases hf : (d0 :: rest).find? isDeviceSuitable with
    | none =>
      rw [hf] at hfind
      have hrun : pickPhysicalDevice self =
          (pickPhysicalDevice.loop (d0 :: rest) self,
            Outcome.threw (Exception.runtime_error "failed to find a suitable GPU!")) := by
        simp only [pickPhysicalDevice, hdev, hcount, if_false, hfind, if_true]
      rw [hrun]
      refine ⟨?_, fun _ => ⟨_, rfl⟩, fun h => absurd h (by simp), hfind⟩
      have hnone : ∀ x ∈ d0 :: rest, isDeviceSuitable x = false := by
        intro x hx
        have := List.find?_eq_none.mp hf x hx
        simpa using this
      simp only [ne_eq, reduceCtorEq, not_false_eq_true, true_iff]
      exact Or.inr hnone
    | some d =>
      rw [hf] at hfind
      have hsome : ¬ (pickPhysicalDevice.loop (d0 :: rest) self).m_physicalDevice = none := by
        rw [hfind]
        simp
      have hrun : pickPhysicalDevice self =
          (pickPhysicalDevice.loop (d0 :: rest) self, Outcome.ok) := by
        simp only [pickPhysicalDevice, hdev, hcount, if_false, hsome]
      rw [hrun]
      obtain ⟨hd, pre, post, hsplit, hpre⟩ := List.find?_eq_some.mp hf
      refine ⟨?_, fun h => absurd rfl h, fun _ => ⟨pre, d, post, hsplit, ?_, hd, hfind⟩, hfind⟩
      · simp only [ne_eq, not_true_eq_false, false_iff, not_or]
        refine ⟨by simp, fun hall => ?_⟩
        have hmem : d ∈ d0 :: rest := by
          rw [hsplit]
          simp
        rw [hall d hmem] at hd
        exact absurd hd (by decide)
      · intro x hx
        simpa using hpre x hx

/-- Witness of C19: of an unsuitable device followed by two suitable ones the
second of the list is chosen; with only an unsuitable device, or none at all,
`pickPhysicalDevice` throws. -/
theorem pickPhysicalDevice_spec_witness :
    (pickPhysicalDevice
      (applicationWithDevices
        [unsuitableDevice, physicalDeviceWith fixedCapabilities splitQueueFamilies,
          physicalDeviceWith fixedCapabilities sharedQueueFamilies])).1.m_physicalDevice =
      some (physicalDeviceWith fixedCapabilities splitQueueFamilies) ∧
    (pickPhysicalDevice (applicationWithDevices [unsuitableDevice])).2 =
      Outcome.threw (Exception.runtime_error "failed to find a suitable GPU!") ∧
    (pickPhysicalDevice (applicationWithDevices [])).2 =
      Outcome.threw (Exception.runtime_error "failed to find GPUs with Vulkan support!") :=
  ⟨((pickPhysicalDevice_spec
      (applicationWithDevices
        [unsuitableDevice, physicalDeviceWith fixedCapabilities splitQueueFamilies,
          physicalDeviceWith fixedCapabilities sharedQueueFamilies]) rfl).2.2.2).trans
      (by decide),
    by decide, by decide⟩

/-! ## Failure of `createSwapChain` on the device that was picked

`m_physicalDevice` is written on line 296 only, inside `pickPhysicalDevice`,
and `initVulkan` (lines 80-96) reaches `createSwapChain` only after
`pickPhysicalDevice` has returned normally, so the states `createSwapChain`
runs on are those whose `m_physicalDevice` is what a normal return of
`pickPhysicalDevice` stored. -/

theorem pickPhysicalDevice.stores_suitable (init : HelloTriangleApplication)
    (hnull : init.m_physicalDevice = none)
    (hok : (pickPhysicalDevice init).2 = Outcome.ok) :
    ∃ pd, (pickPhysicalDevice init).1.m_physicalDevice = some pd ∧
      isDeviceSuitable pd = true := by
  have hloop := pickPhysicalDevice.loop_eq init.m_instance.physicalDevices init
  rw [hnull] at hloop
  by_cases hcount : init.m_instance.physicalDevices.length = 0
  · have hrun : pickPhysicalDevice init =
        (init, Outcome.threw
          (Exception.runtime_error "failed to find GPUs with Vulkan support!")) := by
      simp only [pickPhysicalDevice, hcount, if_true]
    rw [hrun] at hok
    exact Outcome.noConfusion hok
  · cases hf : init.m_instance.physicalDevices.find? isDeviceSuitable with
    | none =>
      rw [hf] at hloop
      have hrun : pickPhysicalDevice init =
          (pickPhysicalDevice.loop init.m_instance.physicalDevices init,
            Outcome.threw (Exception.runtime_error "failed to find a suitable GPU!")) := by
        simp only [pickPhysicalDevice, hcount, if_false, hloop, if_true]
      rw [hrun] at hok
      exact Outcome.noConfusion hok
    | some d =>
      rw [hf] at hloop
      have hsome : ¬ (pickPhysicalDevice.loop init.m_instance.physicalDevices
          init).m_physicalDevice = none := by
        rw [hloop]
        simp
      have hrun : pickPhysicalDevice init =
          (pickPhysicalDevice.loop init.m_instance.physicalDevices init, Outcome.ok) := by
        simp only [pickPhysicalDevice, hcount, if_false, hsome]
      rw [hrun]
      exact ⟨d, hloop, List.find?_some hf⟩

/-- C9: on every state whose `m_physicalDevice` is the device a normal return
of `pickPhysicalDevice` stored, `createSwapChain` makes exactly one creation
call on the device, and it ends other than normally if and only if that call
returns a result other than `VK_SUCCESS`, in which case it throws
`runtime_error("failed to create swap chain!")`. On every state whatever,
when `createSwapChain` ends other than normally, `m_swapChainImages`,
`m_swapChainImageFormat` and `m_swapChainExtent` are left as they were. -/
theorem createSwapChain_fails_iff (self : HelloTriangleApplication) :
    (∀ init : HelloTriangleApplication,
      init.m_physicalDevice = none →
      (pickPhysicalDevice init).2 = Outcome.ok →
      self.m_physicalDevice = (pickPhysicalDevice init).1.m_physicalDevice →
      ∃ (info : VkSwapchainCreateInfoKHR) (tail : List DeviceCall),
        createSwapChain.newCalls self =
          DeviceCall.createSwapchain info
            (self.m_device.vkCreateSwapchainKHR self.calls info).1
            (self.m_device.vkCreateSwapchainKHR self.calls info).2 :: tail ∧
        (∀ call ∈ tail, ∃ sc images, call = DeviceCall.getSwapchainImages sc images) ∧
        ((createSwapChain self).2 ≠ Outcome.ok ↔
          (self.m_device.vkCreateSwapchainKHR self.calls info).1 ≠ VK_SUCCESS) ∧
        ((createSwapChain self).2 ≠ Outcome.ok →
          (createSwapChain self).2 =
            Outcome.threw (Exception.runtime_error "failed to create swap chain!"))) ∧
    ((createSwapChain self).2 ≠ Outcome.ok →
      (createSwapChain self).1.m_swapChainImages = self.m_swapChainImages ∧
      (createSwapChain self).1.m_swapChainImageFormat = self.m_swapChainImageFormat ∧
      (createSwapChain self).1.m_swapChainExtent = self.m_swapChainExtent) := by
  constructor
  · intro init hnull hok hstate
    obtain ⟨pd, hstored, hsuitable⟩ := pickPhysicalDevice.stores_suitable init hnull hok
    obtain ⟨hcomplete, _, hformats, _⟩ := (isDeviceSuitable_iff pd).mp hsuitable
    obtain ⟨info, tail, hcalls, htail, hiff, hfail⟩ :=
      createSwapChain.on_complete_device self pd (hstate.trans hstored) hformats hcomplete
    exact ⟨info, tail, hcalls, htail, hiff, fun h => (hfail h).1⟩
  · intro hfail
    rcases createSwapChain.ends self with hends | ⟨_, _, _, _, hok, _, _⟩
    · exact hends.2
    · exact absurd hok hfail

/-- Witness of C9: `pickPhysicalDevice` passes over an unsuitable device and
stores the suitable one after it; with that device stored, `createSwapChain`
throws and stores nothing when the logical device rejects the creation, and
returns normally when it accepts it. -/
theorem createSwapChain_fails_iff_witness :
    (pickPhysicalDevice
      (applicationWithDevices
        [unsuitableDevice, physicalDeviceWith fixedCapabilities sharedQueueFamilies])).2 =
      Outcome.ok ∧
    (createSwapChain
      (freshApplication rejectingDevice
        (physicalDeviceWith fixedCapabilities sharedQueueFamilies))).2 =
      Outcome.threw (Exception.runtime_error "failed to create swap chain!") ∧
    (createSwapChain
      (freshApplication rejectingDevice
        (physicalDeviceWith fixedCapabilities sharedQueueFamilies))).1.m_swapChainImages = [] ∧
    (createSwapChain
      (freshApplication acceptingDevice
        (physicalDeviceWith fixedCapabilities sharedQueueFamilies))).2 = Outcome.ok := by
  have hpicked : (pickPhysicalDevice
      (applicationWithDevices
        [unsuitableDevice, physicalDeviceWith fixedCapabilities sharedQueueFamilies])).2 =
      Outcome.ok := by decide
  have hne : (createSwapChain
      (freshApplication rejectingDevice
        (physicalDeviceWith fixedCapabilities sharedQueueFamilies))).2 ≠ Outcome.ok :=
    by decide
  obtain ⟨hpick, hkeep⟩ :=
    createSwapChain_fails_iff
      (freshApplication rejectingDevice
        (physicalDeviceWith fixedCapabilities sharedQueueFamilies))
  obtain ⟨info, tail, _, _, _, hthrow⟩ :=
    hpick
      (applicationWithDevices
        [unsuitableDevice, physicalDeviceWith fixedCapabilities sharedQueueFamilies])
      rfl hpicked (by decide)
  exact ⟨hpicked, hthrow hne, (hkeep hne).1, by decide⟩

/-! ## The format chosen for a suitable device -/

theorem chooseSwapSurfaceFormat.loop_mem (l : List VkSurfaceFormatKHR)
    (f : VkSurfaceFormatKHR) (h : chooseSwapSurfaceFormat.loop l = some f) : f ∈ l := by
  induction l with
  | nil => simp [chooseSwapSurfaceFormat.loop] at h
  | cons a rest ih =>
    simp only [chooseSwapSurfaceFormat.loop] at h
    split at h
    · rw [Option.some.inj h]
      exact List.mem_cons_self f rest
    · exact List.mem_cons_of_mem a (ih h)

/-- C20: for a physical device that `isDeviceSuitable` accepts,
`chooseSwapSurfaceFormat` applied to the formats `querySwapChainSupport`
reports is defined (the list is non-empty, so the fallback to entry 0 is in
range) and the format it returns is an element of the device's reported
surface formats. -/
theorem chooseSwapSurfaceFormat_of_suitable (device : VkPhysicalDevice)
    (hsuitable : isDeviceSuitable device = true) :
    (querySwapChainSupport device).formats ≠ [] ∧
    ∃ f, chooseSwapSurfaceFormat (querySwapChainSupport device).formats = some f ∧
      f ∈ device.surfaceFormats := by
  have hne : device.surfaceFormats ≠ [] := ((isDeviceSuitable_iff device).mp hsuitable).2.2.1
  rw [querySwapChainSupport_formats]
  refine ⟨hne, ?_⟩
  obtain ⟨f, hf⟩ := chooseSwapSurfaceFormat_some_of_ne_nil device.surfaceFormats hne
  refine ⟨f, hf, ?_⟩
  unfold chooseSwapSurfaceFormat at hf
  split at hf
  · rename_i g hg
    rw [← Option.some.inj hf]
    exact chooseSwapSurfaceFormat.loop_mem _ _ hg
  · exact List.getElem?_mem hf

/-- Witness of C20: the suitable example device gets its B8G8R8A8 format, the
second of its two reported formats. -/
theorem chooseSwapSurfaceFormat_of_suitable_witness :
    (querySwapChainSupport
      (physicalDeviceWith fixedCapabilities sharedQueueFamilies)).formats ≠ [] ∧
    chooseSwapSurfaceFormat
      (querySwapChainSupport
        (physicalDeviceWith fixedCapabilities sharedQueueFamilies)).formats =
      some ⟨VK_FORMAT_B8G8R8A8_UNORM, VK_COLOR_SPACE_SRGB_NONLINEAR_KHR⟩ :=
  ⟨(chooseSwapSurfaceFormat_of_suitable
      (physicalDeviceWith fixedCapabilities sharedQueueFamilies) (by decide)).1,
    by decide⟩


/-! ## Teardown -/

theorem cleanup.destroyImageViews_eq (views : List VkImageView) :
    cleanup.destroyImageViews views = views.map DeviceCall.destroyImageView := by
  induction views with
  | nil => rfl
  | cons v rest ih => simp [cleanup.destroyImageViews, ih]

/-- The calls of one run of `cleanup`, in order, and the members it leaves. -/
theorem cleanup.run_eq (enableValidationLayers : Bool) (self : HelloTriangleApplication) :
    cleanup enableValidationLayers self =
      { self with
        calls := self.calls ++
          ([DeviceCall.destroyPipelineLayout self.m_pipelineLayout,
              DeviceCall.destroyRenderPass self.m_renderPass] ++
            self.m_swapChainImageViews.map DeviceCall.destroyImageView ++
            DeviceCall.destroySwapchain self.m_swapChain :: DeviceCall.destroyDevice ::
              ((if enableValidationLayers = true ∧
                    self.m_instance.hasDestroyDebugUtilsMessengerEXT = true
                  then [DeviceCall.destroyDebugUtilsMessenger self.m_debugMessenger]
                  else []) ++
                [DeviceCall.destroySurface self.m_surface, DeviceCall.destroyInstance,
                  DeviceCall.glfwDestroyWindow, DeviceCall.glfwTerminate])) } := by
  cases enableValidationLayers <;>
    cases h : self.m_instance.hasDestroyDebugUtilsMessengerEXT <;>
    simp [cleanup, DestroyDebugUtilsMessengerEXT, cleanup.destroyImageViews_eq, h]

theorem liveImageViews.foldl_destroyed (views : List VkImageView) :
    ∀ live : List VkImageView,
      (views.map DeviceCall.destroyImageView).foldl liveImageViews.step (views ++ live) = live := by
  induction views with
  | nil =>
    intro live
    rfl
  | cons v rest ih =>
    intro live
    simp only [List.map_cons, List.foldl_cons, liveImageViews.step, List.cons_append,
      List.erase_cons_head]
    exact ih live

/-- The calls one run of `cleanup` adds, in order. -/
theorem cleanup_order_calls (enableValidationLayers : Bool) (self : HelloTriangleApplication) :
    cleanup.newCalls enableValidationLayers self =
      [DeviceCall.destroyPipelineLayout self.m_pipelineLayout,
          DeviceCall.destroyRenderPass self.m_renderPass] ++
        self.m_swapChainImageViews.map DeviceCall.destroyImageView ++
        DeviceCall.destroySwapchain self.m_swapChain :: DeviceCall.destroyDevice ::
          ((if enableValidationLayers = true ∧
                self.m_instance.hasDestroyDebugUtilsMessengerEXT = true
              then [DeviceCall.destroyDebugUtilsMessenger self.m_debugMessenger]
              else []) ++
            [DeviceCall.destroySurface self.m_surface, DeviceCall.destroyInstance,
              DeviceCall.glfwDestroyWindow, DeviceCall.glfwTerminate]) := by
  unfold cleanup.newCalls
  rw [cleanup.run_eq]
  exact List.drop_left _ _

theorem destroyedImageViews_map (views : List VkImageView) :
    destroyedImageViews (views.map DeviceCall.destroyImageView) = views := by
  induction views with
  | nil => rfl
  | cons v rest ih =>
    simp only [destroyedImageViews, List.map_cons, List.filterMap_cons] at ih ⊢
    rw [ih]

/-- C11: the destroy calls of `cleanup` come in this order: pipeline layout,
render pass, then every stored image view once each in list order, then the
swap chain, then the logical device, then the instance-level objects. So the
views destroyed before the chain are exactly the stored views, and when the
stored views are the views that are live, none is live any more at the moment
the swap chain is destroyed. -/
theorem cleanup_order (enableValidationLayers : Bool) (self : HelloTriangleApplication) :
    cleanup.newCalls enableValidationLayers self =
      [DeviceCall.destroyPipelineLayout self.m_pipelineLayout,
          DeviceCall.destroyRenderPass self.m_renderPass] ++
        self.m_swapChainImageViews.map DeviceCall.destroyImageView ++
        DeviceCall.destroySwapchain self.m_swapChain :: DeviceCall.destroyDevice ::
          ((if enableValidationLayers = true ∧
                self.m_instance.hasDestroyDebugUtilsMessengerEXT = true
              then [DeviceCall.destroyDebugUtilsMessenger self.m_debugMessenger]
              else []) ++
            [DeviceCall.destroySurface self.m_surface, DeviceCall.destroyInstance,
              DeviceCall.glfwDestroyWindow, DeviceCall.glfwTerminate]) ∧
    (∃ before after : List DeviceCall,
      cleanup.newCalls enableValidationLayers self =
        before ++ DeviceCall.destroySwapchain self.m_swapChain ::
          DeviceCall.destroyDevice :: after ∧
      destroyedImageViews before = self.m_swapChainImageViews ∧
      destroyedSwapchains before = [] ∧ DeviceCall.destroyDevice ∉ before ∧
      destroyedImageViews after = [] ∧ destroyedSwapchains after = [] ∧
      DeviceCall.destroyDevice ∉ after ∧
      (liveImageViews self.calls = self.m_swapChainImageViews →
        liveImageViews (self.calls ++ before) = [])) := by
  have hnew := cleanup_order_calls enableValidationLayers self
  refine ⟨hnew, _, _, hnew, ?_, ?_, ?_, ?_, ?_, ?_, ?_⟩
  · have h := destroyedImageViews_map self.m_swapChainImageViews
    unfold destroyedImageViews at h ⊢
    rw [List.filterMap_append, h]
    rfl
  · simp [destroyedSwapchains, List.filterMap_append, List.filterMap_map]
  · simp
  · split <;> simp [destroyedImageViews]
  · split <;> simp [destroyedSwapchains]
  · split <;> simp
  · intro hlive
    unfold liveImageViews at hlive ⊢
    rw [List.foldl_append, hlive, List.foldl_append]
    have h := liveImageViews.foldl_destroyed self.m_swapChainImageViews []
    rw [List.append_nil] at h
    simp only [List.foldl_cons, List.foldl_nil, liveImageViews.step]
    exact h


/-- C12 (amended): `cleanup` writes no member, so the members after a second
call equal those after the first, and the second call repeats the destroy
calls of the first: over the two calls every stored image view is destroyed
twice (the stored list, in order, two times over) and the swap chain is
destroyed twice. -/
theorem cleanup_twice (enableValidationLayers : Bool) (self : HelloTriangleApplication) :
    ({ cleanup enableValidationLayers (cleanup enableValidationLayers self) with calls := [] } :
        HelloTriangleApplication) =
      { cleanup enableValidationLayers self with calls := [] } ∧
    ({ cleanup enableValidationLayers self with calls := [] } : HelloTriangleApplication) =
      { self with calls := [] } ∧
    cleanup.newCalls enableValidationLayers (cleanup enableValidationLayers self) =
      cleanup.newCalls enableValidationLayers self ∧
    (cleanup enableValidationLayers (cleanup enableValidationLayers self)).calls =
      self.calls ++ cleanup.newCalls enableValidationLayers self ++
        cleanup.newCalls enableValidationLayers self ∧
    destroyedImageViews
        (cleanup.newCalls enableValidationLayers self ++
          cleanup.newCalls enableValidationLayers self) =
      self.m_swapChainImageViews ++ self.m_swapChainImageViews ∧
    destroyedSwapchains
        (cleanup.newCalls enableValidationLayers self ++
          cleanup.newCalls enableValidationLayers self) =
      [self.m_swapChain, self.m_swapChain] := by
  have hnew : ∀ s : HelloTriangleApplication,
      (cleanup enableValidationLayers s).calls =
        s.calls ++ cleanup.newCalls enableValidationLayers s := by
    intro s
    unfold cleanup.newCalls
    rw [cleanup.run_eq]
    simp only [List.drop_left]
  have hsame : cleanup.newCalls enableValidationLayers (cleanup enableValidationLayers self) =
      cleanup.newCalls enableValidationLayers self := by
    rw [(cleanup_order_calls enableValidationLayers (cleanup enableValidationLayers self)),
      (cleanup_order_calls enableValidationLayers self)]
    rw [cleanup.run_eq]
  have hviews : destroyedImageViews (cleanup.newCalls enableValidationLayers self) =
      self.m_swapChainImageViews := by
    rw [cleanup_order_calls]
    have h := destroyedImageViews_map self.m_swapChainImageViews
    unfold destroyedImageViews at h ⊢
    rw [List.filterMap_append, List.filterMap_append, h]
    split <;> simp
  have hchains : destroyedSwapchains (cleanup.newCalls enableValidationLayers self) =
      [self.m_swapChain] := by
    rw [cleanup_order_calls]
    split <;> simp [destroyedSwapchains, List.filterMap_append, List.filterMap_map]
  refine ⟨?_, ?_, hsame, ?_, ?_, ?_⟩
  · rw [cleanup.run_eq, cleanup.run_eq]
  · rw [cleanup.run_eq]
  · rw [hnew, hnew, hsame]
  · unfold destroyedImageViews at hviews ⊢
    rw [List.filterMap_append, hviews]
  · unfold destroyedSwapchains at hchains ⊢
    rw [List.filterMap_append, hchains]
    rfl

/-- Counterexample to C12 as stated: after two calls of `cleanup` on an
application with chain 1 and the views 7, 8 and 9, each of the three views and
the chain have been destroyed twice. -/
theorem cleanup_twice_destroys_twice :
    destroyedImageViews (cleanup true (cleanup true applicationAtShutdown)).calls =
      [7, 8, 9, 7, 8, 9] ∧
    (destroyedImageViews (cleanup true (cleanup true applicationAtShutdown)).calls).count 7
      = 2 ∧
    destroyedSwapchains (cleanup true (cleanup true applicationAtShutdown)).calls = [1, 1] ∧
    destroyedImageViews (cleanup true applicationAtShutdown).calls = [7, 8, 9] ∧
    destroyedSwapchains (cleanup true applicationAtShutdown).calls = [1] := by
  refine ⟨by decide, by decide, by decide, by decide, by decide⟩


/-! ## What the rebuilding functions leave untouched -/

theorem RebuiltFrom.refl (s : HelloTriangleApplication) : RebuiltFrom s s :=
  ⟨rfl, [], by simp, by simp⟩

theorem RebuiltFrom.trans {a b c : HelloTriangleApplication} (hab : RebuiltFrom a b)
    (hbc : RebuiltFrom b c) : RebuiltFrom a c := by
  obtain ⟨hs1, n1, hc1, hk1⟩ := hab
  obtain ⟨hs2, n2, hc2, hk2⟩ := hbc
  refine ⟨hs2.trans hs1, n1 ++ n2, ?_, ?_⟩
  · rw [hc2, hc1, List.append_assoc]
  · intro c hc
    rcases List.mem_append.mp hc with h | h
    · exact hk1 c h
    · exact hk2 c h

/-- A state that differs by appended rebuild calls and unchanged slots. -/
theorem RebuiltFrom.of_calls (s r : HelloTriangleApplication) (new : List DeviceCall)
    (hslots : r.frameSlots = s.frameSlots) (hcalls : r.calls = s.calls ++ new)
    (hkind : ∀ c ∈ new, c.isRebuildCall = true) : RebuiltFrom s r :=
  ⟨hslots, new, hcalls, hkind⟩

/-- The function `createSwapChain` leaves the frame slots as they were and
appends rebuild calls only to the history. -/
theorem createSwapChain_rebuilds (self : HelloTriangleApplication) :
    RebuiltFrom self (createSwapChain self).1 := by
  rcases Option.eq_none_or_eq_some self.m_physicalDevice with hpd | ⟨pd, hpd⟩
  · have h : (createSwapChain self).1 = self := by simp [createSwapChain, hpd]
    rw [h]
    exact RebuiltFrom.refl self
  rcases Option.eq_none_or_eq_some
      (chooseSwapSurfaceFormat (querySwapChainSupport pd).formats) with
    hfmt | ⟨surfaceFormat, hfmt⟩
  · have h : (createSwapChain self).1 = self := by simp [createSwapChain, hpd, hfmt]
    rw [h]
    exact RebuiltFrom.refl self
  rcases Option.eq_none_or_eq_some (findQueueFamilies pd).graphicsFamily with hg | ⟨g, hg⟩
  · have h : (createSwapChain self).1 = self := by simp [createSwapChain, hpd, hfmt, hg]
    rw [h]
    exact RebuiltFrom.refl self
  rcases Option.eq_none_or_eq_some (findQueueFamilies pd).presentFamily with hp | ⟨p, hp⟩
  · have h : (createSwapChain self).1 = self := by
      simp [createSwapChain, hpd, hfmt, hg, hp]
    rw [h]
    exact RebuiltFrom.refl self
  unfold createSwapChain
  simp only [hpd, hfmt, hg, hp]
  split
  · exact ⟨rfl, [_], rfl, by simp [DeviceCall.isRebuildCall]⟩
  · exact ⟨rfl, [_, _, _], by simp only [List.append_assoc]; rfl,
      by simp [DeviceCall.isRebuildCall]⟩

theorem createImageViews_loop_rebuilds (rest : List VkImage) :
    ∀ (i : Nat) (s : HelloTriangleApplication),
      RebuiltFrom s (createImageViews.loop rest i s).1 := by
  induction rest with
  | nil =>
    intro i s
    exact RebuiltFrom.refl s
  | cons image rest ih =>
    intro i s
    simp only [createImageViews.loop]
    generalize s.m_device.vkCreateImageView s.calls
      (createImageViews.createInfo image s.m_swapChainImageFormat) = created
    have hstep : RebuiltFrom s
        { s with
          m_swapChainImageViews := s.m_swapChainImageViews.set i created.2
          calls := s.calls ++
            [DeviceCall.createImageView
              (createImageViews.createInfo image s.m_swapChainImageFormat)
              created.1 created.2] } :=
      ⟨rfl, [_], rfl, by simp [DeviceCall.isRebuildCall]⟩
    split
    · exact hstep
    · exact RebuiltFrom.trans hstep (ih _ _)

theorem createImageViews_rebuilds (self : HelloTriangleApplication) :
    RebuiltFrom self (createImageViews self).1 := by
  have hresize : RebuiltFrom self
      { self with
        m_swapChainImageViews :=
          vector_resize self.m_swapChainImageViews self.m_swapChainImages.length } :=
    ⟨rfl, [], by simp, by simp⟩
  exact RebuiltFrom.trans hresize (createImageViews_loop_rebuilds _ _ _)

theorem createFramebuffers_loop_rebuilds (views : List VkImageView) :
    ∀ s : HelloTriangleApplication, RebuiltFrom s (createFramebuffers.loop views s).1 := by
  induction views with
  | nil =>
    intro s
    exact RebuiltFrom.refl s
  | cons view rest ih =>
    intro s
    simp only [createFramebuffers.loop]
    generalize s.m_device.vkCreateFramebuffer s.calls view = created
    have hstep : RebuiltFrom s
        { s with
          calls := s.calls ++ [DeviceCall.createFramebuffer view created.1 created.2] } :=
      ⟨rfl, [_], rfl, by simp [DeviceCall.isRebuildCall]⟩
    split
    · exact hstep
    · refine RebuiltFrom.trans hstep (RebuiltFrom.trans ?_ (ih _))
      exact ⟨rfl, [], by simp, by simp⟩

theorem createFramebuffers_rebuilds (self : HelloTriangleApplication) :
    RebuiltFrom self (createFramebuffers self).1 := by
  have hclear : RebuiltFrom self { self with m_swapChainFramebuffers := [] } :=
    ⟨rfl, [], by simp, by simp⟩
  exact RebuiltFrom.trans hclear (createFramebuffers_loop_rebuilds _ _)

theorem cleanupSwapChain_rebuilds (self : HelloTriangleApplication) :
    RebuiltFrom self (cleanupSwapChain self) := by
  unfold cleanupSwapChain
  simp only
  split
  · refine ⟨rfl, _, by simp only [List.append_assoc]; rfl, ?_⟩
    intro c hc
    rcases List.mem_append.mp hc with h | h
    · obtain ⟨x, _, hx⟩ := List.mem_map.mp h
      rw [← hx]
      rfl
    · obtain ⟨x, _, hx⟩ := List.mem_map.mp h
      rw [← hx]
      rfl
  · refine ⟨rfl, _, by simp only [List.append_assoc]; rfl, ?_⟩
    intro c hc
    rcases List.mem_append.mp hc with h | h
    · obtain ⟨x, _, hx⟩ := List.mem_map.mp h
      rw [← hx]
      rfl
    · rcases List.mem_append.mp h with h | h
      · obtain ⟨x, _, hx⟩ := List.mem_map.mp h
        rw [← hx]
        rfl
      · rw [List.mem_singleton.mp h]
        rfl


theorem RebuiltFrom.of_window (s : HelloTriangleApplication) (window : GLFWwindow)
    (later : List (Int × Int)) :
    RebuiltFrom s { s with m_window := window, windowEvents := later } :=
  ⟨rfl, [], by simp, by simp⟩

/-- After its device-idle wait, `recreateSwapChain` only rebuilds: whatever
way it ends, the frame slots are as before and the calls it has added are
rebuild calls. -/
theorem recreateSwapChain.from_idle (self : HelloTriangleApplication) :
    RebuiltFrom { self with calls := self.calls ++ [DeviceCall.deviceWaitIdle] }
      (recreateSwapChain self).1 := by
  have h1 := cleanupSwapChain_rebuilds
    { self with calls := self.calls ++ [DeviceCall.deviceWaitIdle] }
  unfold recreateSwapChain
  simp only
  split
  · exact h1
  · split
    · exact RebuiltFrom.trans h1
        (RebuiltFrom.trans (RebuiltFrom.of_window _ _ _) (createSwapChain_rebuilds _))
    · split
      · exact RebuiltFrom.trans h1
          (RebuiltFrom.trans (RebuiltFrom.of_window _ _ _)
            (RebuiltFrom.trans (createSwapChain_rebuilds _) (createImageViews_rebuilds _)))
      · exact RebuiltFrom.trans h1
          (RebuiltFrom.trans (RebuiltFrom.of_window _ _ _)
            (RebuiltFrom.trans (createSwapChain_rebuilds _)
              (RebuiltFrom.trans (createImageViews_rebuilds _) (createFramebuffers_rebuilds _))))

/-- The calls of one Recreation: the device-idle wait, once, followed by
rebuild calls; the frame slots are untouched. -/
theorem recreateSwapChain_rebuilds (self : HelloTriangleApplication) :
    (recreateSwapChain self).1.frameSlots = self.frameSlots ∧
    ∃ new : List DeviceCall,
      (recreateSwapChain self).1.calls = self.calls ++ DeviceCall.deviceWaitIdle :: new ∧
      ∀ c ∈ new, c.isRebuildCall = true := by
  obtain ⟨hslots, new, hcalls, hkind⟩ := recreateSwapChain.from_idle self
  refine ⟨hslots, new, ?_, hkind⟩
  rw [hcalls]
  simp only [List.append_assoc, List.singleton_append]


/-! ## The calls of one frame -/

/-- The calls of one run of `drawFrame`, whatever way it ends: the wait on the
fence of the current slot, the acquisition, and then either one Recreation
(acquisition out of date), or nothing (fatal acquisition), or the reset of the
slot's fence, the recording, the submission and, unless the submission is
rejected, the presentation, followed or not by one Recreation. The frame slots
are left as they were. -/
theorem drawFrame.shape (self : HelloTriangleApplication) :
    (drawFrame self).1.frameSlots = self.frameSlots ∧
    ∃ (result : VkResult) (imageIndex : Nat) (tail : List DeviceCall),
      (result, imageIndex) =
        self.m_device.vkAcquireNextImageKHR
          (self.calls ++ [DeviceCall.waitForFences self.m_currentFrame]) ∧
      (drawFrame self).1.calls =
        self.calls ++ DeviceCall.waitForFences self.m_currentFrame ::
          DeviceCall.acquireNextImage self.m_currentFrame result imageIndex :: tail ∧
      ((result = VK_ERROR_OUT_OF_DATE_KHR ∧
          ∃ new, tail = DeviceCall.deviceWaitIdle :: new ∧ ∀ c ∈ new, c.isRebuildCall = true) ∨
        (result ≠ VK_ERROR_OUT_OF_DATE_KHR ∧ tail = []) ∨
        (result ≠ VK_ERROR_OUT_OF_DATE_KHR ∧
          ∃ (extent : VkExtent2D) (submitted : VkResult) (rest : List DeviceCall),
            tail = DeviceCall.resetFences self.m_currentFrame ::
              DeviceCall.recordCommandBuffer self.m_currentFrame imageIndex extent ::
              DeviceCall.queueSubmit self.m_currentFrame submitted :: rest ∧
            (rest = [] ∨
              ∃ (presented : VkResult) (after : List DeviceCall),
                rest = DeviceCall.queuePresent self.m_currentFrame imageIndex presented ::
                  after ∧
                (after = [] ∨
                  ∃ new, after = DeviceCall.deviceWaitIdle :: new ∧
                    ∀ c ∈ new, c.isRebuildCall = true)))) := by
  unfold drawFrame
  simp only
  generalize hacq : self.m_device.vkAcquireNextImageKHR
    (self.calls ++ [DeviceCall.waitForFences self.m_currentFrame]) = acquired
  obtain ⟨result, imageIndex⟩ := acquired
  simp only
  by_cases h1 : result = VK_ERROR_OUT_OF_DATE_KHR
  · rw [if_pos h1]
    obtain ⟨hs, new, hc, hk⟩ := recreateSwapChain_rebuilds
      { self with
        calls := self.calls ++ [DeviceCall.waitForFences self.m_currentFrame] ++
          [DeviceCall.acquireNextImage self.m_currentFrame result imageIndex] }
    refine ⟨hs, result, imageIndex, DeviceCall.deviceWaitIdle :: new, rfl, ?_,
      Or.inl ⟨h1, new, rfl, hk⟩⟩
    exact hc.trans (by simp)
  · rw [if_neg h1]
    by_cases h2 : result ≠ VK_SUCCESS ∧ result ≠ VK_SUBOPTIMAL_KHR
    · rw [if_pos h2]
      exact ⟨rfl, result, imageIndex, [], rfl, by simp, Or.inr (Or.inl ⟨h1, rfl⟩)⟩
    · rw [if_neg h2]
      generalize self.m_device.vkQueueSubmit _ = submitted
      by_cases h3 : submitted ≠ VK_SUCCESS
      · rw [if_pos h3]
        exact ⟨rfl, result, imageIndex, _, rfl, by simp,
          Or.inr (Or.inr ⟨h1, self.m_swapChainExtent, submitted, [], rfl, Or.inl rfl⟩)⟩
      · rw [if_neg h3]
        generalize self.m_device.vkQueuePresentKHR _ = presented
        by_cases h4 : presented = VK_ERROR_OUT_OF_DATE_KHR ∨ presented = VK_SUBOPTIMAL_KHR ∨
            result = VK_SUBOPTIMAL_KHR ∨ self.m_framebufferResized = true
        · rw [if_pos h4]
          obtain ⟨hs, new, hc, hk⟩ := recreateSwapChain_rebuilds
            { self with
              m_framebufferResized := false
              calls := self.calls ++ [DeviceCall.waitForFences self.m_currentFrame] ++
                [DeviceCall.acquireNextImage self.m_currentFrame result imageIndex] ++
                [DeviceCall.resetFences self.m_currentFrame] ++
                [DeviceCall.recordCommandBuffer self.m_currentFrame imageIndex
                  self.m_swapChainExtent] ++
                [DeviceCall.queueSubmit self.m_currentFrame submitted] ++
                [DeviceCall.queuePresent self.m_currentFrame imageIndex presented] }
          have hcalls : (recreateSwapChain
              { self with
                m_framebufferResized := false
                calls := self.calls ++ [DeviceCall.waitForFences self.m_currentFrame] ++
                  [DeviceCall.acquireNextImage self.m_currentFrame result imageIndex] ++
                  [DeviceCall.resetFences self.m_currentFrame] ++
                  [DeviceCall.recordCommandBuffer self.m_currentFrame imageIndex
                    self.m_swapChainExtent] ++
                  [DeviceCall.queueSubmit self.m_currentFrame submitted] ++
                  [DeviceCall.queuePresent self.m_currentFrame imageIndex presented] }).1.calls =
              self.calls ++ DeviceCall.waitForFences self.m_currentFrame ::
                DeviceCall.acquireNextImage self.m_currentFrame result imageIndex ::
                DeviceCall.resetFences self.m_currentFrame ::
                DeviceCall.recordCommandBuffer self.m_currentFrame imageIndex
                  self.m_swapChainExtent ::
                DeviceCall.queueSubmit self.m_currentFrame submitted ::
                DeviceCall.queuePresent self.m_currentFrame imageIndex presented ::
                DeviceCall.deviceWaitIdle :: new :=
            hc.trans (by simp)
          split
          · exact ⟨hs, result, imageIndex, _, rfl, hcalls,
              Or.inr (Or.inr ⟨h1, self.m_swapChainExtent, submitted, _, rfl,
                Or.inr ⟨presented, _, rfl, Or.inr ⟨new, rfl, hk⟩⟩⟩)⟩
          · exact ⟨hs, result, imageIndex, _, rfl, hcalls,
              Or.inr (Or.inr ⟨h1, self.m_swapChainExtent, submitted, _, rfl,
                Or.inr ⟨presented, _, rfl, Or.inr ⟨new, rfl, hk⟩⟩⟩)⟩
        · rw [if_neg h4]
          split
          · exact ⟨rfl, result, imageIndex, _, rfl, by simp,
              Or.inr (Or.inr ⟨h1, self.m_swapChainExtent, submitted, _, rfl,
                Or.inr ⟨presented, [], rfl, Or.inl rfl⟩⟩)⟩
          · exact ⟨rfl, result, imageIndex, _, rfl, by simp [drawFrame.advance],
              Or.inr (Or.inr ⟨h1, self.m_swapChainExtent, submitted, _, rfl,
                Or.inr ⟨presented, [], rfl, Or.inl rfl⟩⟩)⟩


/-! ## Fences are waited on before a slot is reused -/

theorem occurrence_append {P : List DeviceCall → Prop} (x : DeviceCall)
    (hpre : ∀ l a, P a → P (l ++ a)) (hnil : ¬ P []) (first second : List DeviceCall)
    (h1 : ∀ pre post, first = pre ++ x :: post → P pre)
    (h2 : ∀ pre post, second = pre ++ x :: post → P pre) :
    ∀ pre post, first ++ second = pre ++ x :: post → P pre := by
  intro pre post h
  rcases List.append_eq_append_iff.mp h with ⟨a, hpre1, hsec⟩ | ⟨c, hfirst, hx⟩
  · rw [hpre1]
    exact hpre first a (h2 a post hsec)
  · rcases List.cons_eq_append_iff.mp hx with ⟨hc, hsec⟩ | ⟨c2, hc, _⟩
    · exact absurd (h2 [] post hsec) hnil
    · rw [hc] at hfirst
      exact h1 pre c2 hfirst

theorem FenceWaitedBeforeReuse.append (first second : List DeviceCall)
    (h1 : FenceWaitedBeforeReuse first) (h2 : FenceWaitedBeforeReuse second) :
    FenceWaitedBeforeReuse (first ++ second) := by
  constructor
  · intro pre slot post h
    refine occurrence_append
      (P := fun pre => ∃ before result imageIndex,
        pre = before ++
          [DeviceCall.waitForFences slot,
            DeviceCall.acquireNextImage slot result imageIndex])
      (DeviceCall.resetFences slot) ?_ ?_ first second
      (fun pre post h => h1.1 pre slot post h) (fun pre post h => h2.1 pre slot post h)
      pre post h
    · rintro l a ⟨before, result, imageIndex, ha⟩
      exact ⟨l ++ before, result, imageIndex, by rw [ha, List.append_assoc]⟩
    · rintro ⟨before, result, imageIndex, ha⟩
      have := congrArg List.length ha
      simp at this
  · intro pre slot imageIndex extent post h
    refine occurrence_append
      (P := fun pre => ∃ before result,
        pre = before ++
          [DeviceCall.waitForFences slot,
            DeviceCall.acquireNextImage slot result imageIndex,
            DeviceCall.resetFences slot])
      (DeviceCall.recordCommandBuffer slot imageIndex extent) ?_ ?_ first second
      (fun pre post h => h1.2 pre slot imageIndex extent post h)
      (fun pre post h => h2.2 pre slot imageIndex extent post h) pre post h
    · rintro l a ⟨before, result, ha⟩
      exact ⟨l ++ before, result, by rw [ha, List.append_assoc]⟩
    · rintro ⟨before, result, ha⟩
      have := congrArg List.length ha
      simp at this

theorem FenceWaitedBeforeReuse.of_quiet (calls : List DeviceCall)
    (h : ∀ c ∈ calls, c.reusesSlot = false) : FenceWaitedBeforeReuse calls := by
  constructor
  · intro pre slot post hsplit
    have hmem : DeviceCall.resetFences slot ∈ calls := by
      rw [hsplit]
      simp
    exact absurd (h _ hmem) (by simp [DeviceCall.reusesSlot])
  · intro pre slot imageIndex extent post hsplit
    have hmem : DeviceCall.recordCommandBuffer slot imageIndex extent ∈ calls := by
      rw [hsplit]
      simp
    exact absurd (h _ hmem) (by simp [DeviceCall.reusesSlot])

theorem FenceWaitedBeforeReuse.of_frame (slot imageIndex : Nat) (result submitted : VkResult)
    (extent : VkExtent2D) :
    FenceWaitedBeforeReuse
      [DeviceCall.waitForFences slot, DeviceCall.acquireNextImage slot result imageIndex,
        DeviceCall.resetFences slot, DeviceCall.recordCommandBuffer slot imageIndex extent,
        DeviceCall.queueSubmit slot submitted] := by
  constructor
  · intro pre s post h
    rcases pre with _ | ⟨p1, _ | ⟨p2, _ | ⟨p3, _ | ⟨p4, _ | ⟨p5, pre⟩⟩⟩⟩⟩ <;>
      simp at h
    obtain ⟨h1, h2, h3, _⟩ := h
    exact ⟨[], result, imageIndex, by rw [← h1, ← h2, ← h3]; rfl⟩
  · intro pre s i e post h
    rcases pre with _ | ⟨p1, _ | ⟨p2, _ | ⟨p3, _ | ⟨p4, _ | ⟨p5, pre⟩⟩⟩⟩⟩ <;>
      simp at h
    obtain ⟨h1, h2, h3, ⟨h4, h5, _⟩, _⟩ := h
    exact ⟨[], result, by rw [← h1, ← h2, ← h3, ← h4, ← h5]; rfl⟩


theorem DeviceCall.reusesSlot_of_isRebuildCall (c : DeviceCall)
    (h : c.isRebuildCall = true) : c.reusesSlot = false := by
  cases c <;> first | rfl | exact absurd h (by simp [DeviceCall.isRebuildCall])

/-- The calls of one frame keep the fence discipline. -/
theorem drawFrame_fenceWaited (self : HelloTriangleApplication) :
    ∃ frame : List DeviceCall,
      (drawFrame self).1.calls = self.calls ++ frame ∧ FenceWaitedBeforeReuse frame := by
  obtain ⟨_, result, imageIndex, tail, _, hcalls, hcase⟩ := drawFrame.shape self
  refine ⟨_, hcalls, ?_⟩
  have hquiet : ∀ new : List DeviceCall, (∀ c ∈ new, c.isRebuildCall = true) →
      ∀ c ∈ DeviceCall.deviceWaitIdle :: new, c.reusesSlot = false := by
    intro new hk c hc
    rcases List.mem_cons.mp hc with h | h
    · rw [h]
      rfl
    · exact DeviceCall.reusesSlot_of_isRebuildCall c (hk c h)
  rcases hcase with ⟨_, new, htail, hk⟩ | ⟨_, htail⟩ | ⟨_, extent, submitted, rest, htail, hrest⟩
  · rw [htail]
    apply FenceWaitedBeforeReuse.of_quiet
    intro c hc
    rcases List.mem_cons.mp hc with h | h
    · rw [h]
      rfl
    · rcases List.mem_cons.mp h with h | h
      · rw [h]
        rfl
      · exact hquiet new hk c h
  · rw [htail]
    apply FenceWaitedBeforeReuse.of_quiet
    intro c hc
    rcases List.mem_cons.mp hc with h | h
    · rw [h]
      rfl
    · rw [List.mem_singleton.mp h]
      rfl
  · rw [htail]
    have hcore := FenceWaitedBeforeReuse.of_frame self.m_currentFrame imageIndex result
      submitted extent
    have hrestq : FenceWaitedBeforeReuse rest := by
      apply FenceWaitedBeforeReuse.of_quiet
      rcases hrest with hnil | ⟨presented, after, hr, hafter⟩
      · rw [hnil]
        simp
      · rw [hr]
        intro c hc
        rcases List.mem_cons.mp hc with h | h
        · rw [h]
          rfl
        · rcases hafter with hnil | ⟨new, ha, hk⟩
          · rw [hnil] at h
            exact absurd h (List.not_mem_nil c)
          · rw [ha] at h
            exact hquiet new hk c h
    exact FenceWaitedBeforeReuse.append _ rest hcore hrestq

/-- The calls of any number of frames keep the fence discipline. -/
theorem renderFrames_fenceWaited (frames : Nat) :
    ∀ self : HelloTriangleApplication,
      ∃ run : List DeviceCall,
        (renderFrames frames self).1.calls = self.calls ++ run ∧
          FenceWaitedBeforeReuse run := by
  induction frames with
  | zero =>
    intro self
    exact ⟨[], by simp [renderFrames], FenceWaitedBeforeReuse.of_quiet [] (by simp)⟩
  | succ n ih =>
    intro self
    obtain ⟨frame, hframe, hq⟩ := drawFrame_fenceWaited self
    simp only [renderFrames]
    split
    · exact ⟨frame, hframe, hq⟩
    · obtain ⟨run, hrun, hqrun⟩ := ih (drawFrame self).1
      exact ⟨frame ++ run, by rw [hrun, hframe, List.append_assoc],
        FenceWaitedBeforeReuse.append frame run hq hqrun⟩

/-- C13: in the history of any run of the frame loop (any number of calls of
`drawFrame`, from any state), and of every single `drawFrame`, the fence of a
slot is waited on before that slot is reused: every reset of a slot's fence
comes directly after the acquisition that directly follows the wait on that
slot's fence, and every re-recording of a slot's command buffer directly after
that reset. Three frames of the example application use the slots 0, 1, 0 in
this way. -/
theorem drawFrame_waits_before_reuse (frames : Nat) (self : HelloTriangleApplication) :
    FenceWaitedBeforeReuse (renderFrames.newCalls frames self) ∧
    FenceWaitedBeforeReuse (drawFrame.newCalls self) ∧
    renderFrames.newCalls 3 (applicationInFlight acceptingDevice) =
      [DeviceCall.waitForFences 0, DeviceCall.acquireNextImage 0 VK_SUCCESS 0,
        DeviceCall.resetFences 0, DeviceCall.recordCommandBuffer 0 0 ⟨800, 600⟩,
        DeviceCall.queueSubmit 0 VK_SUCCESS, DeviceCall.queuePresent 0 0 VK_SUCCESS,
        DeviceCall.waitForFences 1, DeviceCall.acquireNextImage 1 VK_SUCCESS 0,
        DeviceCall.resetFences 1, DeviceCall.recordCommandBuffer 1 0 ⟨800, 600⟩,
        DeviceCall.queueSubmit 1 VK_SUCCESS, DeviceCall.queuePresent 1 0 VK_SUCCESS,
        DeviceCall.waitForFences 0, DeviceCall.acquireNextImage 0 VK_SUCCESS 0,
        DeviceCall.resetFences 0, DeviceCall.recordCommandBuffer 0 0 ⟨800, 600⟩,
        DeviceCall.queueSubmit 0 VK_SUCCESS, DeviceCall.queuePresent 0 0 VK_SUCCESS] := by
  refine ⟨?_, ?_, by decide⟩
  · obtain ⟨run, hrun, hq⟩ := renderFrames_fenceWaited frames self
    unfold renderFrames.newCalls
    rw [hrun, List.drop_left]
    exact hq
  · obtain ⟨frame, hframe, hq⟩ := drawFrame_fenceWaited self
    unfold drawFrame.newCalls
    rw [hframe, List.drop_left]
    exact hq


/-! ## An out-of-date acquisition -/

/-- C14: when the acquisition of a frame reports out-of-date, `drawFrame` is
the wait, the acquisition and then one call of `recreateSwapChain`: the calls
of that frame are the wait, the acquisition, one device-idle wait (the first
step of Recreation) and rebuild calls; no fence is reset, nothing is submitted
and nothing is presented. Every frame, so also the next one, starts with the
wait directly followed by its acquisition, so one Recreation and no more lies
between this acquisition and the next. -/
theorem drawFrame_out_of_date (self : HelloTriangleApplication)
    (hout : (self.m_device.vkAcquireNextImageKHR
        (self.calls ++ [DeviceCall.waitForFences self.m_currentFrame])).1 =
      VK_ERROR_OUT_OF_DATE_KHR) :
    (∃ (imageIndex : Nat) (new : List DeviceCall),
      drawFrame self =
        recreateSwapChain
          { self with
            calls := self.calls ++ [DeviceCall.waitForFences self.m_currentFrame] ++
              [DeviceCall.acquireNextImage self.m_currentFrame VK_ERROR_OUT_OF_DATE_KHR
                imageIndex] } ∧
      drawFrame.newCalls self =
        DeviceCall.waitForFences self.m_currentFrame ::
          DeviceCall.acquireNextImage self.m_currentFrame VK_ERROR_OUT_OF_DATE_KHR
            imageIndex ::
          DeviceCall.deviceWaitIdle :: new ∧
      ∀ c ∈ new, c.isRebuildCall = true) ∧
    (∀ c ∈ drawFrame.newCalls self,
      (∀ slot, c ≠ DeviceCall.resetFences slot) ∧
      (∀ slot imageIndex extent, c ≠ DeviceCall.recordCommandBuffer slot imageIndex extent) ∧
      (∀ slot result, c ≠ DeviceCall.queueSubmit slot result) ∧
      (∀ slot imageIndex result, c ≠ DeviceCall.queuePresent slot imageIndex result)) ∧
    (drawFrame.newCalls self).count DeviceCall.deviceWaitIdle = 1 ∧
    (∀ next : HelloTriangleApplication,
      ∃ result imageIndex tail,
        drawFrame.newCalls next =
          DeviceCall.waitForFences next.m_currentFrame ::
            DeviceCall.acquireNextImage next.m_currentFrame result imageIndex :: tail) := by
  have hnext : ∀ next : HelloTriangleApplication,
      ∃ result imageIndex tail,
        drawFrame.newCalls next =
          DeviceCall.waitForFences next.m_currentFrame ::
            DeviceCall.acquireNextImage next.m_currentFrame result imageIndex :: tail := by
    intro next
    obtain ⟨_, result, imageIndex, tail, _, hcalls, _⟩ := drawFrame.shape next
    refine ⟨result, imageIndex, tail, ?_⟩
    unfold drawFrame.newCalls
    rw [hcalls, List.drop_left]
  obtain ⟨_, result, imageIndex, tail, hacq, hcalls, hcase⟩ := drawFrame.shape self
  have hresult : result = VK_ERROR_OUT_OF_DATE_KHR := by
    rw [← hout, ← hacq]
  subst hresult
  have hnew : drawFrame.newCalls self =
      DeviceCall.waitForFences self.m_currentFrame ::
        DeviceCall.acquireNextImage self.m_currentFrame VK_ERROR_OUT_OF_DATE_KHR
          imageIndex :: tail := by
    unfold drawFrame.newCalls
    rw [hcalls, List.drop_left]
  rcases hcase with ⟨_, new, htail, hk⟩ | ⟨hne, _⟩ | ⟨hne, _⟩
  · rw [htail] at hnew
    have hrun : drawFrame self =
        recreateSwapChain
          { self with
            calls := self.calls ++ [DeviceCall.waitForFences self.m_currentFrame] ++
              [DeviceCall.acquireNextImage self.m_currentFrame VK_ERROR_OUT_OF_DATE_KHR
                imageIndex] } := by
      have h1 : (self.m_device.vkAcquireNextImageKHR
          (self.calls ++ [DeviceCall.waitForFences self.m_currentFrame])).1 =
          VK_ERROR_OUT_OF_DATE_KHR := hout
      have h2 : (self.m_device.vkAcquireNextImageKHR
          (self.calls ++ [DeviceCall.waitForFences self.m_currentFrame])).2 = imageIndex := by
        rw [← hacq]
      unfold drawFrame
      simp only [h1, h2, if_true]
    refine ⟨⟨imageIndex, new, hrun, hnew, hk⟩, ?_, ?_, hnext⟩
    · intro c hc
      rw [hnew] at hc
      have hcases : c = DeviceCall.waitForFences self.m_currentFrame ∨
          c = DeviceCall.acquireNextImage self.m_currentFrame VK_ERROR_OUT_OF_DATE_KHR
            imageIndex ∨
          c = DeviceCall.deviceWaitIdle ∨ c.isRebuildCall = true := by
        rcases List.mem_cons.mp hc with h | h
        · exact Or.inl h
        · rcases List.mem_cons.mp h with h | h
          · exact Or.inr (Or.inl h)
          · rcases List.mem_cons.mp h with h | h
            · exact Or.inr (Or.inr (Or.inl h))
            · exact Or.inr (Or.inr (Or.inr (hk c h)))
      rcases hcases with h | h | h | h
      · subst h
        exact ⟨fun _ => nofun, fun _ _ _ => nofun, fun _ _ => nofun, fun _ _ _ => nofun⟩
      · subst h
        exact ⟨fun _ => nofun, fun _ _ _ => nofun, fun _ _ => nofun, fun _ _ _ => nofun⟩
      · subst h
        exact ⟨fun _ => nofun, fun _ _ _ => nofun, fun _ _ => nofun, fun _ _ _ => nofun⟩
      · refine ⟨fun _ hc => ?_, fun _ _ _ hc => ?_, fun _ _ hc => ?_, fun _ _ _ hc => ?_⟩ <;>
          · subst hc
            simp [DeviceCall.isRebuildCall] at h
    · rw [hnew]
      have hzero : new.count DeviceCall.deviceWaitIdle = 0 := by
        rw [List.count_eq_zero]
        intro hmem
        have := hk _ hmem
        simp [DeviceCall.isRebuildCall] at this
      simp [List.count_cons, hzero]
  · exact absurd rfl hne
  · exact absurd rfl hne

/-- Witness of C14: on the example application, with a device whose first
acquisition is out of date, the frame waits, acquires, and recreates the chain
(idle wait, two framebuffers and two views destroyed, the chain destroyed and
rebuilt with its views and framebuffers); the cursor stays on slot 0. -/
theorem drawFrame_out_of_date_witness :
    (drawFrame.newCalls (applicationInFlight outOfDateDevice)).take 9 =
      [DeviceCall.waitForFences 0,
        DeviceCall.acquireNextImage 0 VK_ERROR_OUT_OF_DATE_KHR 0,
        DeviceCall.deviceWaitIdle,
        DeviceCall.destroyFramebuffer 11, DeviceCall.destroyFramebuffer 12,
        DeviceCall.destroyImageView 7, DeviceCall.destroyImageView 8,
        DeviceCall.destroySwapchain 1,
        DeviceCall.createSwapchain
          { imageFormat := VK_FORMAT_B8G8R8A8_UNORM
            imageColorSpace := VK_COLOR_SPACE_SRGB_NONLINEAR_KHR
            presentMode := VK_PRESENT_MODE_MAILBOX_KHR
            imageExtent := ⟨800, 600⟩
            minImageCount := 3
            imageArrayLayers := 1
            imageUsage := VK_IMAGE_USAGE_COLOR_ATTACHMENT_BIT
            imageSharingMode := VK_SHARING_MODE_EXCLUSIVE
            queueFamilyIndexCount := 0
            pQueueFamilyIndices := []
            preTransform := 1
            compositeAlpha := VK_COMPOSITE_ALPHA_OPAQUE_BIT_KHR
            clipped := VK_TRUE
            oldSwapchain := VK_NULL_HANDLE } VK_SUCCESS 9] ∧
    (drawFrame (applicationInFlight outOfDateDevice)).2 = Outcome.ok ∧
    (drawFrame (applicationInFlight outOfDateDevice)).1.m_currentFrame = 0 ∧
    (drawFrame.newCalls (applicationInFlight outOfDateDevice)).count
      DeviceCall.deviceWaitIdle = 1 :=
  ⟨by decide, by decide, by decide,
    (drawFrame_out_of_date (applicationInFlight outOfDateDevice) (by decide)).2.2.1⟩

/-! ## The ring of frame slots -/

theorem recreateSwapChainTimes_keeps_slots (count : Nat) :
    ∀ self : HelloTriangleApplication,
      (recreateSwapChainTimes count self).frameSlots = self.frameSlots := by
  induction count with
  | zero =>
    intro self
    rfl
  | succ n ih =>
    intro self
    simp only [recreateSwapChainTimes]
    rw [ih]
    exact (recreateSwapChain_rebuilds self).1

/-- C15: after any number of Recreation cycles, from any state and whatever
way each of them ends, the image-available semaphores, the render-finished
semaphores, the in-flight fences and the command buffers are the lists they
were, so the number of frame slots is unchanged; the number of chain images
(and of views and framebuffers) can change, as on the example application,
whose chain of two images is rebuilt with three. -/
theorem recreateSwapChain_keeps_ring (count : Nat) (self : HelloTriangleApplication) :
    (recreateSwapChainTimes count self).m_imageAvailableSemaphores =
      self.m_imageAvailableSemaphores ∧
    (recreateSwapChainTimes count self).m_renderFinishedSemaphores =
      self.m_renderFinishedSemaphores ∧
    (recreateSwapChainTimes count self).m_inFlightFences = self.m_inFlightFences ∧
    (recreateSwapChainTimes count self).m_commandBuffers = self.m_commandBuffers ∧
    (recreateSwapChainTimes count self).m_imageAvailableSemaphores.length =
      self.m_imageAvailableSemaphores.length ∧
    (recreateSwapChainTimes count self).m_renderFinishedSemaphores.length =
      self.m_renderFinishedSemaphores.length ∧
    (recreateSwapChainTimes count self).m_inFlightFences.length =
      self.m_inFlightFences.length ∧
    (recreateSwapChainTimes count self).m_commandBuffers.length =
      self.m_commandBuffers.length ∧
    (applicationInFlight acceptingDevice).m_swapChainImages.length = 2 ∧
    (recreateSwapChainTimes 1 (applicationInFlight acceptingDevice)).m_swapChainImages.length
      = 3 ∧
    (recreateSwapChainTimes 1
      (applicationInFlight acceptingDevice)).m_swapChainImageViews.length = 3 ∧
    (recreateSwapChainTimes 1
      (applicationInFlight acceptingDevice)).m_swapChainFramebuffers.length = 3 ∧
    (recreateSwapChainTimes 1 (applicationInFlight acceptingDevice)).m_inFlightFences.length
      = 2 := by
  have h := recreateSwapChainTimes_keeps_slots count self
  simp only [frameSlots, Prod.mk.injEq] at h
  obtain ⟨h1, h2, h3, h4⟩ := h
  refine ⟨h1, h2, h3, h4, by rw [h1], by rw [h2], by rw [h3], by rw [h4],
    by decide, by decide, by decide, by decide, by decide⟩


/-! ## The present mode is one the surface reported -/

theorem chooseSwapPresentMode_cases (l : List VkPresentModeKHR) :
    (VK_PRESENT_MODE_MAILBOX_KHR ∈ l ∧
        chooseSwapPresentMode l = VK_PRESENT_MODE_MAILBOX_KHR) ∨
      (VK_PRESENT_MODE_MAILBOX_KHR ∉ l ∧
        chooseSwapPresentMode l = VK_PRESENT_MODE_FIFO_KHR) := by
  induction l with
  | nil => exact Or.inr ⟨List.not_mem_nil _, rfl⟩
  | cons a rest ih =>
    by_cases ha : a = VK_PRESENT_MODE_MAILBOX_KHR
    · left
      refine ⟨by rw [ha]; exact List.mem_cons_self _ _, ?_⟩
      simp only [chooseSwapPresentMode, if_pos ha]
      exact ha
    · simp only [chooseSwapPresentMode, if_neg ha]
      rcases ih with ⟨hmem, hres⟩ | ⟨hnot, hres⟩
      · exact Or.inl ⟨List.mem_cons_of_mem a hmem, hres⟩
      · refine Or.inr ⟨fun h => ?_, hres⟩
        rcases List.mem_cons.mp h with h | h
        · exact ha h.symm
        · exact hnot h

/-- C21: for every list of available present modes that contains
`VK_PRESENT_MODE_FIFO_KHR` or `VK_PRESENT_MODE_MAILBOX_KHR`, the mode that
`chooseSwapPresentMode` returns is an element of the list and is one of
MAILBOX and FIFO; and when the surface of the stored physical device reports
such a list, the present mode of every creation request `createSwapChain`
makes is one of the reported modes. -/
theorem chooseSwapPresentMode_mem (availablePresentModes : List VkPresentModeKHR)
    (hlist : VK_PRESENT_MODE_FIFO_KHR ∈ availablePresentModes ∨
      VK_PRESENT_MODE_MAILBOX_KHR ∈ availablePresentModes) :
    chooseSwapPresentMode availablePresentModes ∈ availablePresentModes ∧
    (chooseSwapPresentMode availablePresentModes = VK_PRESENT_MODE_MAILBOX_KHR ∨
      chooseSwapPresentMode availablePresentModes = VK_PRESENT_MODE_FIFO_KHR) ∧
    ∀ (self : HelloTriangleApplication) (pd : VkPhysicalDevice),
      self.m_physicalDevice = some pd → pd.surfacePresentModes = availablePresentModes →
      ∀ info ∈ createSwapChain.requests self,
        info.presentMode ∈ availablePresentModes ∧
          (info.presentMode = VK_PRESENT_MODE_MAILBOX_KHR ∨
            info.presentMode = VK_PRESENT_MODE_FIFO_KHR) := by
  have hmode : chooseSwapPresentMode availablePresentModes ∈ availablePresentModes ∧
      (chooseSwapPresentMode availablePresentModes = VK_PRESENT_MODE_MAILBOX_KHR ∨
        chooseSwapPresentMode availablePresentModes = VK_PRESENT_MODE_FIFO_KHR) := by
    rcases chooseSwapPresentMode_cases availablePresentModes with ⟨hmem, hres⟩ | ⟨hnot, hres⟩
    · rw [hres]
      exact ⟨hmem, Or.inl rfl⟩
    · rw [hres]
      exact ⟨hlist.resolve_right hnot, Or.inr rfl⟩
  refine ⟨hmode.1, hmode.2, ?_⟩
  intro self pd hpd hmodes info hinfo
  obtain ⟨pd2, surfaceFormat, g, p, hpd2, hfmt, hidx⟩ :=
    createSwapChain.requests_inv self info hinfo
  rw [createSwapChain.requests_eq self pd2 surfaceFormat g p hpd2 hfmt hidx,
    List.mem_singleton] at hinfo
  have hsame : pd2 = pd := Option.some.inj (hpd2.symm.trans hpd)
  subst hinfo
  subst hsame
  simp only [querySwapChainSupport_presentModes, hmodes]
  exact hmode

/-- Witness of C21: from `[IMMEDIATE, FIFO]` the choice is FIFO, from
`[FIFO, MAILBOX]` it is MAILBOX, and the one creation request of
`createSwapChain` on the example device, whose surface reports
`[FIFO, MAILBOX]`, asks for MAILBOX. A list with neither mode, such as
`[IMMEDIATE]`, still gets FIFO. -/
theorem chooseSwapPresentMode_mem_witness :
    chooseSwapPresentMode [VK_PRESENT_MODE_IMMEDIATE_KHR, VK_PRESENT_MODE_FIFO_KHR] ∈
      [VK_PRESENT_MODE_IMMEDIATE_KHR, VK_PRESENT_MODE_FIFO_KHR] ∧
    chooseSwapPresentMode [VK_PRESENT_MODE_IMMEDIATE_KHR, VK_PRESENT_MODE_FIFO_KHR] =
      VK_PRESENT_MODE_FIFO_KHR ∧
    chooseSwapPresentMode [VK_PRESENT_MODE_FIFO_KHR, VK_PRESENT_MODE_MAILBOX_KHR] ∈
      [VK_PRESENT_MODE_FIFO_KHR, VK_PRESENT_MODE_MAILBOX_KHR] ∧
    (createSwapChain.requests
      (freshApplication acceptingDevice
        (physicalDeviceWith fixedCapabilities sharedQueueFamilies))).map
      (fun info => info.presentMode) = [VK_PRESENT_MODE_MAILBOX_KHR] ∧
    chooseSwapPresentMode [VK_PRESENT_MODE_IMMEDIATE_KHR] = VK_PRESENT_MODE_FIFO_KHR :=
  ⟨(chooseSwapPresentMode_mem [VK_PRESENT_MODE_IMMEDIATE_KHR, VK_PRESENT_MODE_FIFO_KHR]
      (Or.inl (by decide))).1,
    by decide,
    (chooseSwapPresentMode_mem [VK_PRESENT_MODE_FIFO_KHR, VK_PRESENT_MODE_MAILBOX_KHR]
      (Or.inr (by decide))).1,
    by decide, by decide⟩

end HelloTriangleApplication
